import Mathlib

set_option maxRecDepth 100000

/-!
Verification of the burnout3 static-analysis pipeline against its
natural-language specification.

The Lean definitions below are shallow embeddings of the Python sources under
tools/: each definition mirrors one Python function or class, keeping its
name (camel-cased) and its control flow.  Byte buffers are lists of natural
numbers, Python dicts are association lists (first binding wins on lookup,
mirroring the fact that the Python code only ever inserts a key once), and
Python floats used as confidence values are rendered as rationals with the
same literal value.  Fallible Python code (raising exceptions) is embedded
in the Except monad over the PyErr type.
-/

namespace B3

/-- Python exception kinds raised by the embedded code. -/
inductive PyErr where
  | valueError (msg : String)
  | structError
  | attributeError (name : String)
  deriving Repr, DecidableEq

/-- Association-list lookup, first binding wins (Python dict semantics for the
embedding: keys are inserted at most once, updates cons a fresh binding for a
key that is not yet present). -/
def alookup {α : Type} (l : List (Nat × α)) (k : Nat) : Option α :=
  match l with
  | [] => none
  | (a, v) :: rest => if k = a then some v else alookup rest k

/-- Uppercase hex digit for a value below 16. -/
def hexDigitChar (n : Nat) : Char :=
  if n = 0 then '0' else if n = 1 then '1' else if n = 2 then '2'
  else if n = 3 then '3' else if n = 4 then '4' else if n = 5 then '5'
  else if n = 6 then '6' else if n = 7 then '7' else if n = 8 then '8'
  else if n = 9 then '9' else if n = 10 then 'A' else if n = 11 then 'B'
  else if n = 12 then 'C' else if n = 13 then 'D' else if n = 14 then 'E'
  else 'F'

/-- Fuel-bounded hex digit accumulation (32-bit values need at most 8 digits;
16 gives ample slack while keeping the recursion structural). -/
def natToHexAux : Nat → Nat → List Char
  | 0, _ => []
  | fuel + 1, n =>
    if n = 0 then [] else natToHexAux fuel (n / 16) ++ [hexDigitChar (n % 16)]

/-- Python format spec X: uppercase hex, no padding, zero renders as 0. -/
def natToHexUpper (n : Nat) : String :=
  if n = 0 then "0" else String.mk (natToHexAux 16 n)

/-- Python format spec 08X: uppercase hex padded with zeros to 8 digits. -/
def hex8 (n : Nat) : String :=
  let s := natToHexUpper n
  String.mk (List.replicate (8 - s.length) '0') ++ s

end B3

namespace B3.Abi

/-!
Embedding of tools/abi_analysis/analyzer.py (the parts claim C8 is about):
the calling-convention detector and its two byte-pattern probes.
-/

/-- The ret-imm16 probe inlined at the top of analyzer._detect_calling_convention:
with an epilogue of at least 3 bytes, scan indices
range(len - 3, max(len - 8, -1), -1) for an 0xC2 opcode byte.  For
len >= 3 that index window is exactly max(len - 7, 0) <= i <= len - 3
(Nat subtraction clamps at zero exactly like the max against -1), and the loop
only tests existence, so an unordered any over the window is equivalent. -/
def hasRetN (epilogue : List Nat) : Bool :=
  let n := epilogue.length
  if n ≥ 3 then
    (List.range n).any fun i =>
      decide (n - 7 ≤ i) && decide (i ≤ n - 3) && (epilogue.getD i 0 == 0xC2)
  else false

/-- analyzer._check_ecx_as_this: scan the first min(len-2, 32) prologue offsets
for mov-from-[ecx], mov-from-[ecx+disp8], mov-to-[ecx+disp8] or mov-reg,ecx
encodings.  The push-ecx arm of the Python loop only executes continue, so it
contributes nothing. -/
def checkEcxAsThis (prologue : List Nat) : Bool :=
  if prologue.length < 4 then false
  else
    (List.range (min (prologue.length - 2) 32)).any fun i =>
      let b0 := prologue.getD i 0
      let b1 := if i + 1 < prologue.length then prologue.getD (i + 1) 0 else 0
      (b0 == 0x8B && (b1 &&& 0xC7) == 0x41) ||
      (b0 == 0x8B && (b1 &&& 0xC7) == 0x01) ||
      (b0 == 0x89 && (b1 &&& 0xC7) == 0x41) ||
      (b0 == 0x8B && (b1 &&& 0x07) == 0x01 && (b1 &&& 0xC0) == 0xC0)

/-- analyzer._detect_calling_convention.  The stack-cleanup immediate that the
Python code also extracts does not influence the returned convention, so only
the has_ret_n flag is kept. -/
def detectCallingConvention (prologue epilogue : List Nat) : String :=
  let hasRet := hasRetN epilogue
  let ecxUsage := checkEcxAsThis prologue
  if ecxUsage && hasRet then "thiscall"
  else if ecxUsage then "thiscall_cdecl"
  else if hasRet then "stdcall"
  else "cdecl"

end B3.Abi

namespace B3.Disasm

/-!
Embedding of tools/disasm: loader.py section and kernel-import records,
engine.py decoded instructions, xrefs.py cross-reference construction and
functions.py function-boundary detection.
-/

/-- SectionInfo (loader.py). -/
structure SectionInfo where
  name : String
  virtualAddr : Nat
  virtualSize : Nat
  rawAddr : Nat := 0
  rawSize : Nat := 0
  writable : Bool := false
  executable : Bool := false
  deriving Repr, DecidableEq

/-- KernelImport (loader.py). -/
structure KernelImport where
  ordinal : Nat
  name : String
  thunkAddr : Nat
  deriving Repr, DecidableEq

/-- BinaryImage (loader.py), restricted to the fields the embedded pipeline
reads: the section list and the kernel-import list with its thunk index. -/
structure BinaryImage where
  sections : List SectionInfo
  kernelImports : List KernelImport
  entryPoint : Nat := 0
  baseAddress : Nat := 0
  imageSize : Nat := 0
  deriving Repr

/-- BinaryImage.get_section_at_va: first section whose range contains va. -/
def getSectionAtVa (image : BinaryImage) (va : Nat) : Option SectionInfo :=
  image.sections.find? fun sec =>
    decide (sec.virtualAddr ≤ va) && decide (va < sec.virtualAddr + sec.virtualSize)

/-- BinaryImage.get_kernel_import_at_thunk: thunk-address index lookup. -/
def getKernelImportAtThunk (image : BinaryImage) (thunkAddr : Nat) : Option KernelImport :=
  image.kernelImports.find? fun ki => ki.thunkAddr == thunkAddr

/-- Instruction (engine.py): a decoded instruction with its classification
flags and resolved targets, exactly the fields the dataclass carries. -/
structure EInsn where
  address : Nat
  size : Nat
  mnemonic : String := ""
  opStr : String := ""
  isCall : Bool := false
  isRet : Bool := false
  isJump : Bool := false
  isCondJump : Bool := false
  isNop : Bool := false
  callTarget : Option Nat := none
  jumpTarget : Option Nat := none
  memoryRef : Option Nat := none
  deriving Repr, DecidableEq

/-- Instruction.is_branch. -/
def EInsn.isBranch (i : EInsn) : Bool := i.isJump || i.isCondJump

/-- Instruction.end_address. -/
def EInsn.endAddress (i : EInsn) : Nat := i.address + i.size

/-- DisasmEngine.get_instruction: the engine instruction map keyed by address.
The map is carried as the list of its values; lookup scans for the matching
address key (the dict invariant instructions[a].address = a is captured by
the find? predicate). -/
def getInstruction (insns : List EInsn) (addr : Nat) : Option EInsn :=
  insns.find? fun i => i.address == addr

/-- DisasmEngine.get_instructions_in_range: instructions with
start <= address < end (the sorted-view ordering does not matter for the
claims, which only use counts and membership). -/
def instructionsInRange (insns : List EInsn) (start stop : Nat) : List EInsn :=
  insns.filter fun i => decide (start ≤ i.address) && decide (i.address < stop)

/-- XRefType (xrefs.py): the closed enumeration of cross-reference kinds.
There is no data-write member. -/
inductive XRefType where
  | call
  | jump
  | condJump
  | dataRead
  | kernelCall
  deriving Repr, DecidableEq

/-- XRefType.value: the JSON string of each kind. -/
def XRefType.value : XRefType → String
  | .call => "call"
  | .jump => "jump"
  | .condJump => "cond_jump"
  | .dataRead => "data_read"
  | .kernelCall => "kernel_call"

/-- XRef (xrefs.py). -/
structure XRef where
  fromAddr : Nat
  toAddr : Nat
  xrefType : XRefType
  kernelName : Option String := none
  deriving Repr, DecidableEq

/-- The per-instruction body of build_xrefs (xrefs.py): the cross-references
one decoded instruction contributes, in source order.  The tracker only
accumulates these lists, so build_xrefs is their concatenation. -/
def xrefsOfInsn (image : BinaryImage) (insn : EInsn) : List XRef :=
  (match insn.isCall, insn.callTarget with
   | true, some t => [{ fromAddr := insn.address, toAddr := t, xrefType := .call }]
   | _, _ => []) ++
  (match insn.isCall, insn.memoryRef with
   | true, some m =>
     match getKernelImportAtThunk image m with
     | some ki =>
       [{ fromAddr := insn.address, toAddr := m, xrefType := .kernelCall,
          kernelName := some ki.name }]
     | none => [{ fromAddr := insn.address, toAddr := m, xrefType := .call }]
   | _, _ => []) ++
  (match insn.isJump || insn.isCondJump, insn.memoryRef with
   | true, some m =>
     match getKernelImportAtThunk image m with
     | some ki =>
       [{ fromAddr := insn.address, toAddr := m, xrefType := .kernelCall,
          kernelName := some ki.name }]
     | none => []
   | _, _ => []) ++
  (match insn.isJump, insn.jumpTarget with
   | true, some t => [{ fromAddr := insn.address, toAddr := t, xrefType := .jump }]
   | _, _ => []) ++
  (match insn.isCondJump, insn.jumpTarget with
   | true, some t => [{ fromAddr := insn.address, toAddr := t, xrefType := .condJump }]
   | _, _ => []) ++
  (match !(insn.isCall || insn.isBranch), insn.memoryRef with
   | true, some m => [{ fromAddr := insn.address, toAddr := m, xrefType := .dataRead }]
   | _, _ => [])

/-- build_xrefs (xrefs.py): one pass over the decoded instructions. -/
def buildXrefs (insns : List EInsn) (image : BinaryImage) : List XRef :=
  insns.flatMap (xrefsOfInsn image)

end B3.Disasm

namespace B3.Disasm

/-- Function (functions.py): a detected function record.  Confidence values
are the Python float literals rendered as rationals. -/
structure FunctionRec where
  start : Nat
  stop : Nat
  name : String := ""
  sectionName : String := ""
  confidence : ℚ := 0
  detectionMethod : String := ""
  numInstructions : Nat := 0
  hasPrologue : Bool := false
  deriving Repr

/-- Loop body of FunctionDetector._find_function_end.  The walk keeps the
furthest reachable point max_addr, extends it over internal forward
conditional-jump targets below upper, and stops at an unconditional
terminator once every such target is covered.  Each iteration advances addr
by the decoded size, so fuel bounds the number of iterations; the invariant
theorems below hold for every fuel value and the callers pass enough fuel
for any instruction stream whose sizes are positive. -/
def findEndLoop (insns : List EInsn) (start upper : Nat) :
    Nat → Nat → Nat → Nat
  | 0, _, maxAddr => maxAddr
  | fuel + 1, addr, maxAddr =>
    if addr < upper then
      match getInstruction insns addr with
      | none => maxAddr
      | some insn =>
        let m1 := if insn.endAddress > maxAddr then insn.endAddress else maxAddr
        let m2 :=
          if insn.isCondJump then
            match insn.jumpTarget with
            | some target =>
              if start ≤ target ∧ target < upper ∧ target > m1 then target else m1
            | none => m1
          else m1
        if insn.isRet ∨ (insn.isJump ∧ ¬ insn.isCondJump) then
          if addr + insn.size ≥ m2 then m2
          else findEndLoop insns start upper fuel insn.endAddress m2
        else findEndLoop insns start upper fuel insn.endAddress m2
    else maxAddr

/-- First upper bound of _find_function_end: the section end when truthy,
else start + 0x100000. -/
def upper0Of (start : Nat) (secEnd : Option Nat) : Nat :=
  match secEnd with
  | some s => if s ≠ 0 then s else start + 0x100000
  | none => start + 0x100000

/-- Final upper bound of _find_function_end: the next candidate clamps the
section bound when truthy and smaller. -/
def upperOf (start : Nat) (nextFunc secEnd : Option Nat) : Nat :=
  match nextFunc with
  | some n => if n ≠ 0 ∧ n < upper0Of start secEnd then n else upper0Of start secEnd
  | none => upper0Of start secEnd

/-- FunctionDetector._find_function_end: derive the upper walking bound from
the section end (falling back to start + 0x100000) clamped by the next
candidate, then run the forward walk.  The Python truthiness tests on
sec_end and next_func are kept as explicit zero tests. -/
def findFunctionEnd (insns : List EInsn) (start : Nat) (nextFunc : Option Nat)
    (secEnd : Option Nat) : Nat :=
  findEndLoop insns start (upperOf start nextFunc secEnd)
    (upperOf start nextFunc secEnd + 1) start start

/-- FunctionDetector._build_functions, walking the sorted candidate list.
For each candidate the end is computed by the forward walk bounded by the
next candidate and the containing section; candidates whose range holds no
decoded instruction are discarded.  candInfo supplies the (confidence,
method) pair recorded for the candidate, and labels the optional explicit
name (labels.get in the source; the auto-registration side effect of
auto_name_function does not alter the produced records). -/
def buildFunctions (insns : List EInsn) (image : BinaryImage)
    (candInfo : Nat → ℚ × String) (labels : Nat → Option String) :
    List Nat → List FunctionRec
  | [] => []
  | startAddr :: rest =>
    let info := candInfo startAddr
    let sec := getSectionAtVa image startAddr
    let secName := match sec with | some s => s.name | none => ""
    let nextFunc := rest.head?
    let secEnd := sec.map fun s => s.virtualAddr + s.virtualSize
    let endAddr := findFunctionEnd insns startAddr nextFunc secEnd
    let numInsns := (instructionsInRange insns startAddr endAddr).length
    let firstInsn := getInstruction insns startAddr
    let hasPrologue :=
      match firstInsn with
      | some i => i.mnemonic == "push" && i.opStr == "ebp"
      | none => false
    let name :=
      match labels startAddr with
      | some n => n
      | none => "sub_" ++ B3.hex8 startAddr
    let rest' := buildFunctions insns image candInfo labels rest
    if numInsns = 0 then rest'
    else
      { start := startAddr, stop := endAddr, name := name, sectionName := secName,
        confidence := info.1, detectionMethod := info.2,
        numInstructions := numInsns, hasPrologue := hasPrologue } :: rest'

end B3.Disasm

namespace B3.GlobalMap

/-!
Embedding of tools/global_map/mapper.py: building the globals database from
the cross-reference records and inferring variable sizes from address gaps.
-/

/-- Section ranges hard-coded at the top of mapper.py. -/
def DATA_VA_START : Nat := 0x003B2360
def DATA_VA_END : Nat := 0x003B2360 + 3904988
def RDATA_VA_START : Nat := 0x0036B7C0
def RDATA_VA_END : Nat := 0x0036B7C0 + 289684

/-- A serialized cross-reference record as the mapper reads it from
xrefs.json: the type string plus parsed from/to addresses. -/
structure XRefRec where
  fromAddr : Nat
  toAddr : Nat
  typeStr : String
  deriving Repr, DecidableEq

/-- XRef.to_dict (xrefs.py) as consumed by the mapper: the type field is the
XRefType value string and the addresses round-trip through hex text. -/
def xrefToRec (x : B3.Disasm.XRef) : XRefRec :=
  { fromAddr := x.fromAddr, toAddr := x.toAddr, typeStr := x.xrefType.value }

/-- One globals-database entry (the dict created in
_build_globals_from_xrefs).  accessor_functions is a set (kept as a
duplicate-free list) and accessor_categories a Counter (kept as an
association list of counts). -/
structure GlobalEntry where
  address : Nat
  sectionName : String
  readCount : Nat := 0
  writeCount : Nat := 0
  accessorFunctions : List Nat := []
  accessorCategories : List (String × Nat) := []
  inferredSize : Nat := 4
  classification : String := "unknown"
  deriving Repr, DecidableEq

/-- Counter increment: bump the count for a key, inserting it at 1. -/
def counterBump (c : List (String × Nat)) (k : String) : List (String × Nat) :=
  match c with
  | [] => [(k, 1)]
  | (a, n) :: rest => if a = k then (a, n + 1) :: rest else (a, n) :: counterBump rest k

/-- Set insert for the accessor-function set. -/
def setAdd (l : List Nat) (x : Nat) : List Nat :=
  if x ∈ l then l else l ++ [x]

/-- _find_containing_function: bisect_right on the sorted start array, that
is, the last start that is <= addr in list order. -/
def findContainingFunction (funcStarts : List Nat) (addr : Nat) : Option Nat :=
  funcStarts.foldl (fun acc s => if s ≤ addr then some s else acc) none

/-- Insertion sort on naturals (sorted(...) in the Python sources). -/
def insortNat (x : Nat) : List Nat → List Nat
  | [] => [x]
  | y :: ys => if x ≤ y then x :: y :: ys else y :: insortNat x ys

/-- sorted(...) for a list of naturals. -/
def sortNats (l : List Nat) : List Nat := l.foldr insortNat []

/-- Fresh entry created when a target address is first seen
(_build_globals_from_xrefs). -/
def entryInit (target : Nat) (sec : String) : GlobalEntry :=
  { address := target, sectionName := sec }

/-- Per-xref entry mutation of _build_globals_from_xrefs: bump the read or
write count and record the accessor function and its category (when a
containing function was found; Python truthiness also drops a zero
address). -/
def entryUpdate (xref : XRefRec) (funcAddr : Option Nat) (funcCat : String)
    (e : GlobalEntry) : GlobalEntry :=
  let e1 :=
    if xref.typeStr = "data_read" then { e with readCount := e.readCount + 1 }
    else { e with writeCount := e.writeCount + 1 }
  match funcAddr with
  | some fa =>
    if fa ≠ 0 then
      { e1 with accessorFunctions := setAdd e1.accessorFunctions fa,
                accessorCategories := counterBump e1.accessorCategories funcCat }
    else e1
  | none => e1

/-- Section choice of _build_globals_from_xrefs: .data first, then .rdata,
else the reference is skipped. -/
def sectionChoiceFor (target : Nat) : Option String :=
  if DATA_VA_START ≤ target ∧ target < DATA_VA_END then some ".data"
  else if RDATA_VA_START ≤ target ∧ target < RDATA_VA_END then some ".rdata"
  else none

/-- Body of the _build_globals_from_xrefs loop for one xref record applied to
the accumulated database (an association list in dict insertion order). -/
def buildGlobalsStep (funcStarts : List Nat) (funcCategories : Nat → Option String)
    (db : List (Nat × GlobalEntry)) (xref : XRefRec) : List (Nat × GlobalEntry) :=
  if xref.typeStr ≠ "data_read" ∧ xref.typeStr ≠ "data_write" then db
  else
    let target := xref.toAddr
    match sectionChoiceFor target with
    | none => db
    | some sec =>
      let source := xref.fromAddr
      let funcAddr := findContainingFunction funcStarts source
      let funcCat :=
        match funcAddr with
        | some fa => if fa ≠ 0 then (funcCategories fa).getD "unknown" else "unknown"
        | none => "unknown"
      let db1 :=
        if (B3.alookup db target).isSome then db
        else db ++ [(target, entryInit target sec)]
      db1.map fun p =>
        if p.1 = target then (p.1, entryUpdate xref funcAddr funcCat p.2) else p

/-- _build_globals_from_xrefs (mapper.py): fold the loop body over the xref
records. -/
def buildGlobalsFromXrefs (xrefs : List XRefRec) (funcStarts : List Nat)
    (funcCategories : Nat → Option String) : List (Nat × GlobalEntry) :=
  xrefs.foldl (buildGlobalsStep funcStarts funcCategories) []

/-- Size chosen by the _infer_sizes loop body for one global, from the gap to
the next sorted address and the alignment of the address itself. -/
def inferSize (gap addr : Nat) : Nat :=
  let size :=
    if gap ≤ 1 then 1
    else if gap ≤ 2 then 2
    else if gap ≤ 4 then 4
    else if gap ≤ 8 then
      if gap = 5 ∨ gap = 6 ∨ gap = 7 ∨ gap = 8 then gap else 4
    else if gap ≤ 16 then 8
    else 4
  if size > 1 ∧ addr % size ≠ 0 then
    if addr % 4 = 0 then 4
    else if addr % 2 = 0 then 2
    else 1
  else size

/-- _infer_sizes over the sorted address list: the gap is the distance to the
next address, defaulting to 256 for the last variable. -/
def inferSizes : List Nat → List (Nat × Nat)
  | [] => []
  | addr :: rest =>
    let gap := match rest.head? with | some nxt => nxt - addr | none => 256
    (addr, inferSize gap addr) :: inferSizes rest

/-- _infer_sizes (mapper.py): write the inferred sizes back into the
database entries. -/
def inferSizesDb (db : List (Nat × GlobalEntry)) : List (Nat × GlobalEntry) :=
  let sizes := inferSizes (sortNats (db.map Prod.fst))
  db.map fun (k, e) =>
    (k, { e with inferredSize := (B3.alookup sizes k).getD e.inferredSize })

end B3.GlobalMap

namespace B3.FuncId

/-!
Embedding of tools/func_id: config.py constants, clustering.py label
propagation, identify.py phase ordering (the CRT/RW overlap removal) and
output.py enriched-database construction.
-/

/-- config.py confidence constants. -/
def CONFIDENCE_CLUSTER_CALL : ℚ := 0.75
def CONFIDENCE_CLUSTER_PROXIMITY : ℚ := 0.65
def PROXIMITY_GAP : Nat := 0x1000
def MAX_CLUSTER_ITERATIONS : Nat := 10

/-- config.py GAME_SUBCATEGORIES: category keyword table, in source order. -/
def GAME_SUBCATEGORIES : List (String × List String) :=
  [("vehicle", ["vehicle", "car ", "wheel", "engine", "gear", "throttle", "brake",
                "steer", "turbo", "boost", "rpm", "speed", "crash", "takedown",
                "jolt", "wreck", "drift"]),
   ("audio", ["sound", "audio", "music", "sfx", "voice", "wma", "dsp",
              "volume", "pitch", "reverb", "impulse", "speaker", "channel"]),
   ("camera", ["camera", "cam_", "look back", "bumper", "follow"]),
   ("physics", ["collid", "collisi", "physics", "rigid", "force", "velocity",
                "mass", "angular", "gravity", "friction", "momentum"]),
   ("ui", ["menu", "hud", "font", "screen", "button", "press", "select",
           "gamertag", "profile"]),
   ("network", ["online", "xbox live", "session", "host", "join", "rank",
                "sign in", "sign out", "matchmak"]),
   ("io", ["save", "load", "partition", "device\\", "\\tdata", "content",
           "savemeta", "saveimage"]),
   ("render", ["render", "draw", "shader", "vertex", "texture", "material",
               "d3d", "pixel"]),
   ("debug", ["assert", "error", "warning", "debug"])]

/-- config.py defines no binding named XDK_SECTIONS: the module-level names
stop at GAME_SUBCATEGORIES and the default paths, so the attribute access
config.XDK_SECTIONS in clustering._classify_xdk_callers raises
AttributeError.  The absent attribute is embedded as none. -/
def configXdkSections : Option (List (String × Nat × Nat × String)) := none

/-- A functions.json record as read by func_id (addresses parsed from their
hex strings). -/
structure FuncJson where
  start : Nat
  stop : Nat := 0
  size : Nat := 0
  name : String := ""
  sectionName : String := ""
  callsTo : List Nat := []
  deriving Repr, DecidableEq

/-- One identification record from rw_identifier.py (the fields
identify/output read). -/
structure RwInfo where
  category : String
  module : String := ""
  sourceFile : String := ""
  confidence : ℚ := 0.95
  method : String := "rw_string_ref"
  deriving Repr, DecidableEq

/-- One identification record from crt_identifier.py. -/
structure CrtInfo where
  name : String
  confidence : ℚ := 0.90
  method : String := "crt_signature"
  patternLen : Nat := 0
  deriving Repr, DecidableEq

/-- One propagation record produced by clustering.py. -/
structure PropInfo where
  category : String
  subcategory : Option String := none
  confidence : ℚ := 0
  method : String := ""
  vtableAddr : Option Nat := none
  vtableIndex : Option Nat := none
  deriving Repr, DecidableEq

/-- One stub-classification record (stub_classifier.py), read by output.py. -/
structure StubInfo where
  category : String
  stubType : String := ""
  confidence : ℚ := 0
  method : String := ""
  deriving Repr, DecidableEq

/-- Counter increment, inserting unseen keys at the end (Python dict
insertion order). -/
def counterBump (c : List (String × Nat)) (k : String) : List (String × Nat) :=
  match c with
  | [] => [(k, 1)]
  | (a, n) :: rest => if a = k then (a, n + 1) :: rest else (a, n) :: counterBump rest k

/-- Python max(counter, key=counter.get): the first key of maximal count in
iteration order (later keys replace only on a strictly greater count). -/
def counterArgmaxAux : List (String × Nat) → String → Nat → String
  | [], best, _ => best
  | (k, n) :: rest, best, bestN =>
    if n > bestN then counterArgmaxAux rest k n else counterArgmaxAux rest best bestN

/-- Python max over a nonempty counter; none on the empty counter (where the
Python call would raise, which the embedded code never reaches). -/
def counterArgmax : List (String × Nat) → Option String
  | [] => none
  | (k, n) :: rest => some (counterArgmaxAux rest k n)

/-- Character-list match of a pattern at the head of a text. -/
def charsMatchHead : List Char → List Char → Bool
  | [], _ => true
  | _ :: _, [] => false
  | a :: as, b :: bs => a == b && charsMatchHead as bs

/-- Substring search for the Python in operator on strings. -/
def hasSubstrAux (pat : List Char) : List Char → Bool
  | [] => charsMatchHead pat []
  | c :: rest => charsMatchHead pat (c :: rest) || hasSubstrAux pat rest

/-- Python kw in text for strings. -/
def strContains (text pat : String) : Bool := hasSubstrAux pat.toList text.toList

/-- Python s.startswith(p), over the character lists. -/
def strStartsWith (s p : String) : Bool := charsMatchHead p.toList s.toList

/-- The Python float test rw_count / len(caller_set) >= 0.67 rendered as the
exact rational comparison 100 * num >= 67 * den.  For den > 0 the two agree:
a ratio of small naturals differs from 67/100 by at least 1/(100 * den),
far above the rounding error of the double division for any den below 2^40,
so the float comparison and the exact comparison coincide. -/
def ratioGe067 (num den : Nat) : Bool := 100 * num ≥ 67 * den

/-- callers map from the call graph built at the top of propagate_labels:
the set of function starts whose calls_to contains addr. -/
def callersOf (functions : List FuncJson) (addr : Nat) : List Nat :=
  ((functions.filter fun f => addr ∈ f.callsTo).map (·.start)).dedup

/-- callees map from the call graph: the set of targets in calls_to of the
functions starting at addr. -/
def calleesOf (functions : List FuncJson) (addr : Nat) : List Nat :=
  ((functions.filter fun f => f.start = addr).flatMap (·.callsTo)).dedup

/-- Initial label merge in propagate_labels: RW categories, then crt
overwriting on collision (first-wins lookup puts the crt bindings first). -/
def initLabels (rwResults : List (Nat × RwInfo)) (crtResults : List (Nat × CrtInfo)) :
    List (Nat × String) :=
  (crtResults.map fun p => (p.1, "crt")) ++ rwResults.map fun p => (p.1, p.2.category)

/-- State threaded through one propagation pass: the labels dict, the
propagated dict, and the new-label counter. -/
structure PassState where
  labels : List (Nat × String)
  propagated : List (Nat × PropInfo)
  count : Nat := 0
  deriving Repr

/-- rw caller/callee tally: the count of rw_-labeled neighbors and the
per-label sub-counts, in neighbor iteration order. -/
def rwTally (labels : List (Nat × String)) (neighbors : List Nat) :
    Nat × List (String × Nat) :=
  neighbors.foldl
    (fun acc c =>
      match B3.alookup labels c with
      | some l => if strStartsWith l "rw_" then (acc.1 + 1, counterBump acc.2 l) else acc
      | none => acc)
    (0, [])

/-- Body of the forward-majority loop in propagate_labels for one address:
unlabeled functions with at least two callers inherit the most common rw
label when at least two callers are rw-labeled and the rw fraction passes
the 0.67 test. -/
def forwardStep (callers : Nat → List Nat) (st : PassState) (addr : Nat) : PassState :=
  if (B3.alookup st.labels addr).isSome then st
  else
    let callerSet := callers addr
    if callerSet.length < 2 then st
    else
      let tally := rwTally st.labels callerSet
      if tally.1 ≥ 2 ∧ ratioGe067 tally.1 callerSet.length then
        match counterArgmax tally.2 with
        | some best =>
          { labels := (addr, best) :: st.labels,
            propagated := (addr,
              { category := best, subcategory := none,
                confidence := CONFIDENCE_CLUSTER_CALL,
                method := "cluster_forward" }) :: st.propagated,
            count := st.count + 1 }
        | none => st
      else st

/-- The forward-majority pass: one sweep over the sorted addresses. -/
def forwardPass (sortedAddrs : List Nat) (callers : Nat → List Nat)
    (st : PassState) : PassState :=
  sortedAddrs.foldl (forwardStep callers) st

/-- Body of the backward-majority loop: the same rule over callees, with
method cluster_backward. -/
def backwardStep (callees : Nat → List Nat) (st : PassState) (addr : Nat) : PassState :=
  if (B3.alookup st.labels addr).isSome then st
  else
    let calleeSet := callees addr
    if calleeSet.length < 2 then st
    else
      let tally := rwTally st.labels calleeSet
      if tally.1 ≥ 2 ∧ ratioGe067 tally.1 calleeSet.length then
        match counterArgmax tally.2 with
        | some best =>
          { labels := (addr, best) :: st.labels,
            propagated := (addr,
              { category := best, subcategory := none,
                confidence := CONFIDENCE_CLUSTER_CALL,
                method := "cluster_backward" }) :: st.propagated,
            count := st.count + 1 }
        | none => st
      else st

/-- The backward-majority pass. -/
def backwardPass (sortedAddrs : List Nat) (callees : Nat → List Nat)
    (st : PassState) : PassState :=
  sortedAddrs.foldl (backwardStep callees) st

/-- The bounded forward/backward iteration of propagate_labels: up to
MAX_CLUSTER_ITERATIONS rounds, stopping early once a round adds no label. -/
def clusterIterations (sortedAddrs : List Nat) (callers callees : Nat → List Nat) :
    Nat → List (Nat × String) → List (Nat × PropInfo) →
    List (Nat × String) × List (Nat × PropInfo)
  | 0, labels, prop => (labels, prop)
  | n + 1, labels, prop =>
    let st1 := forwardPass sortedAddrs callers { labels := labels, propagated := prop }
    let st2 := backwardPass sortedAddrs callees
      { labels := st1.labels, propagated := st1.propagated }
    if st1.count + st2.count = 0 then (st2.labels, st2.propagated)
    else clusterIterations sortedAddrs callers callees n st2.labels st2.propagated

/-- min() over a list of naturals. -/
def natMinOf (l : List Nat) : Option Nat :=
  l.foldl (fun acc x => match acc with | none => some x | some m => some (min m x)) none

/-- max() over a list of naturals. -/
def natMaxOf (l : List Nat) : Option Nat :=
  l.foldl (fun acc x => match acc with | none => some x | some m => some (max m x)) none

/-- Addresses currently carrying an rw_ label, in sorted-address order. -/
def rwLabeled (sortedAddrs : List Nat) (labels : List (Nat × String)) : List Nat :=
  sortedAddrs.filter fun a =>
    match B3.alookup labels a with
    | some l => strStartsWith l "rw_"
    | none => false

/-- Body of one _rw_region_propagation sweep for one address: any call-graph
connection to an rw-labeled function labels the address with the most common
connected rw label at confidence 0.70. -/
def rwRegionStep (callers callees : Nat → List Nat) (st : PassState) (addr : Nat) :
    PassState :=
  if (B3.alookup st.labels addr).isSome then st
  else
    let tallyCallers := rwTally st.labels (callers addr)
    let tally := (callees addr).foldl
      (fun acc c =>
        match B3.alookup st.labels c with
        | some l => if strStartsWith l "rw_" then (acc.1 + 1, counterBump acc.2 l) else acc
        | none => acc)
      tallyCallers
    if tally.1 > 0 then
      let best := match counterArgmax tally.2 with | some b => b | none => "rw_core"
      { labels := (addr, best) :: st.labels,
        propagated := (addr,
          { category := best, subcategory := none, confidence := 0.70,
            method := "rw_region_propagation" }) :: st.propagated,
        count := st.count + 1 }
    else st

/-- The inner convergence loop of _rw_region_propagation (at most 20
rounds, stopping when a round labels nothing). -/
def rwRegionRounds (callers callees : Nat → List Nat) (regionAddrs : List Nat) :
    Nat → List (Nat × String) → List (Nat × PropInfo) →
    List (Nat × String) × List (Nat × PropInfo)
  | 0, labels, prop => (labels, prop)
  | n + 1, labels, prop =>
    let st := regionAddrs.foldl (rwRegionStep callers callees)
      { labels := labels, propagated := prop }
    if st.count = 0 then (st.labels, st.propagated)
    else rwRegionRounds callers callees regionAddrs n st.labels st.propagated

/-- _rw_region_propagation (clustering.py): aggressive propagation inside
the [min rw, max rw] address region, skipped entirely below 10 rw labels. -/
def rwRegionPropagation (sortedAddrs : List Nat) (callers callees : Nat → List Nat)
    (labels : List (Nat × String)) (prop : List (Nat × PropInfo)) :
    List (Nat × String) × List (Nat × PropInfo) :=
  let rwAddrs := rwLabeled sortedAddrs labels
  if rwAddrs.length < 10 then (labels, prop)
  else
    match natMinOf rwAddrs, natMaxOf rwAddrs with
    | some lo, some hi =>
      let regionAddrs := sortedAddrs.filter fun a => decide (lo ≤ a) && decide (a ≤ hi)
      rwRegionRounds callers callees regionAddrs 20 labels prop
    | _, _ => (labels, prop)

/-- Body of one _proximity_propagation sweep for one (prev, curr, next)
triple of consecutive sorted addresses; the labels mutated earlier in the
same sweep are visible to later triples. -/
def proximityStep (lo hi : Nat) (rwNonempty : Bool) (st : PassState)
    (triple : Nat × Nat × Nat) : PassState :=
  let prevAddr := triple.1
  let addr := triple.2.1
  let nextAddr := triple.2.2
  if (B3.alookup st.labels addr).isSome then st
  else
    let prevLbl := B3.alookup st.labels prevAddr
    let nextLbl := B3.alookup st.labels nextAddr
    let inRwRegion := rwNonempty && decide (lo ≤ addr) && decide (addr ≤ hi)
    if inRwRegion then
      let rwNeighbor : Option String :=
        match prevLbl with
        | some pl =>
          if strStartsWith pl "rw_" ∧ addr - prevAddr ≤ 0x2000 then some pl
          else
            match nextLbl with
            | some nl => if strStartsWith nl "rw_" ∧ nextAddr - addr ≤ 0x2000 then some nl else none
            | none => none
        | none =>
          match nextLbl with
          | some nl => if strStartsWith nl "rw_" ∧ nextAddr - addr ≤ 0x2000 then some nl else none
          | none => none
      match rwNeighbor with
      | some lbl =>
        { labels := (addr, lbl) :: st.labels,
          propagated := (addr,
            { category := lbl, subcategory := none, confidence := 0.60,
              method := "cluster_proximity" }) :: st.propagated,
          count := st.count + 1 }
      | none => st
    else
      if addr - prevAddr > PROXIMITY_GAP then st
      else if nextAddr - addr > PROXIMITY_GAP then st
      else
        match prevLbl, nextLbl with
        | some pl, some nl =>
          if strStartsWith pl "rw_" && strStartsWith nl "rw_" then
            { labels := (addr, pl) :: st.labels,
              propagated := (addr,
                { category := pl, subcategory := none,
                  confidence := CONFIDENCE_CLUSTER_PROXIMITY,
                  method := "cluster_proximity" }) :: st.propagated,
              count := st.count + 1 }
          else st
        | _, _ => st

/-- _proximity_propagation (clustering.py): one sweep over interior sorted
addresses, with the rw region bounds fixed at sweep entry. -/
def proximityPropagation (sortedAddrs : List Nat) (labels : List (Nat × String))
    (prop : List (Nat × PropInfo)) : PassState :=
  let rwAddrs := rwLabeled sortedAddrs labels
  let lo := (natMinOf rwAddrs).getD 0
  let hi := (natMaxOf rwAddrs).getD 0
  let triples := sortedAddrs.zip ((sortedAddrs.drop 1).zip (sortedAddrs.drop 2))
  triples.foldl (proximityStep lo hi (!rwAddrs.isEmpty))
    { labels := labels, propagated := prop }

/-- The iterative proximity loop in propagate_labels (at most 20 passes,
stopping when a pass labels nothing). -/
def proximityRounds (sortedAddrs : List Nat) :
    Nat → List (Nat × String) → List (Nat × PropInfo) →
    List (Nat × String) × List (Nat × PropInfo)
  | 0, labels, prop => (labels, prop)
  | n + 1, labels, prop =>
    let st := proximityPropagation sortedAddrs labels prop
    if st.count = 0 then (st.labels, st.propagated)
    else proximityRounds sortedAddrs n st.labels st.propagated

/-- _classify_rw_consumers (clustering.py): unlabeled functions below the rw
region start that call at least one rw function become game_engine (0.65). -/
def classifyRwConsumers (sortedAddrs : List Nat) (callees : Nat → List Nat)
    (labels : List (Nat × String)) (prop : List (Nat × PropInfo)) :
    List (Nat × String) × List (Nat × PropInfo) :=
  let rwAddrs := rwLabeled sortedAddrs labels
  match natMinOf rwAddrs with
  | none => (labels, prop)
  | some lo =>
    let final := sortedAddrs.foldl
      (fun (st : PassState) addr =>
        if (B3.alookup st.labels addr).isSome then st
        else if lo ≤ addr then st
        else
          let rwCalls := ((callees addr).filter fun c =>
            match B3.alookup st.labels c with
            | some l => strStartsWith l "rw_"
            | none => false).length
          if rwCalls ≥ 1 then
            { labels := (addr, "game_engine") :: st.labels,
              propagated := (addr,
                { category := "game_engine", subcategory := some "engine",
                  confidence := 0.65, method := "rw_consumer" }) :: st.propagated,
              count := st.count + 1 }
          else st)
      { labels := labels, propagated := prop }
    (final.labels, final.propagated)

/-- _classify_xdk_callers (clustering.py).  The function begins with
xdk_sections = config.XDK_SECTIONS; config.py defines no such attribute
(configXdkSections = none), so the call raises AttributeError before
examining any function.  The some branch embeds the loop the source would
run if the table existed. -/
def classifyXdkCallers (sortedAddrs : List Nat) (callees : Nat → List Nat)
    (labels : List (Nat × String)) (prop : List (Nat × PropInfo)) :
    Except B3.PyErr (List (Nat × String) × List (Nat × PropInfo)) :=
  match configXdkSections with
  | none => .error (.attributeError "XDK_SECTIONS")
  | some xdkSections =>
    let final := sortedAddrs.foldl
      (fun (st : PassState) addr =>
        if (B3.alookup st.labels addr).isSome then st
        else
          let calleeSet := callees addr
          if calleeSet.isEmpty then st
          else
            let xdkCats := calleeSet.foldl
              (fun acc target =>
                xdkSections.foldl
                  (fun acc2 entry =>
                    let lo := entry.2.1
                    let hi := entry.2.2.1
                    let cat := entry.2.2.2
                    if lo ≤ target ∧ target < hi then counterBump acc2 cat else acc2)
                  acc)
              ([] : List (String × Nat))
            match counterArgmax xdkCats with
            | some bestCat =>
              { labels := (addr, bestCat) :: st.labels,
                propagated := (addr,
                  { category := bestCat,
                    subcategory := some (bestCat.replace "game_" ""),
                    confidence := 0.70, method := "xdk_caller" }) :: st.propagated,
                count := st.count + 1 }
            | none => st)
      { labels := labels, propagated := prop }
    .ok (final.labels, final.propagated)

/-- _build_string_ref_map (clustering.py): function address to the lowercased
texts of the strings it references. -/
def buildStringRefMap (immRefs : List (Nat × List Nat)) (strings : List (Nat × String)) :
    List (Nat × List String) :=
  immRefs.foldl
    (fun acc entry =>
      match B3.alookup strings entry.1 with
      | some text =>
        entry.2.foldl
          (fun acc2 fa =>
            match B3.alookup acc2 fa with
            | some _texts => acc2.map fun p => if p.1 = fa then (p.1, p.2 ++ [text.toLower]) else p
            | none => acc2 ++ [(fa, [text.toLower])])
          acc
      | none => acc)
    []

/-- _classify_game_subcategories (clustering.py): keyword scoring of the
referenced strings, first maximal category wins, minimum score 1. -/
def classifyGameSubcategories (sortedAddrs : List Nat)
    (stringRefs : List (Nat × List String))
    (labels : List (Nat × String)) (prop : List (Nat × PropInfo)) :
    List (Nat × String) × List (Nat × PropInfo) :=
  let final := sortedAddrs.foldl
    (fun (st : PassState) addr =>
      if (B3.alookup st.labels addr).isSome then st
      else
        let refs := (B3.alookup stringRefs addr).getD []
        if refs.isEmpty then st
        else
          let combined := String.intercalate " " refs
          let bestPair := GAME_SUBCATEGORIES.foldl
            (fun (acc : Option String × Nat) entry =>
              let score := (entry.2.filter fun kw => strContains combined kw).length
              if score > acc.2 then (some entry.1, score) else acc)
            (none, 0)
          match bestPair.1 with
          | some bestCat =>
            if bestPair.2 ≥ 1 then
              { labels := (addr, "game_" ++ bestCat) :: st.labels,
                propagated := (addr,
                  { category := "game_" ++ bestCat, subcategory := some bestCat,
                    confidence := 0.60, method := "string_keyword" }) :: st.propagated,
                count := st.count + 1 }
            else st
          | none => st)
    { labels := labels, propagated := prop }
  (final.labels, final.propagated)

/-- propagate_labels (clustering.py): the full propagation stage, in source
order.  The _classify_xdk_callers phase is fallible (missing
config.XDK_SECTIONS), so the stage is an Except computation that returns the
propagated dict on success. -/
def propagateLabels (functions : List FuncJson) (rwResults : List (Nat × RwInfo))
    (crtResults : List (Nat × CrtInfo)) (immRefs : List (Nat × List Nat))
    (strings : List (Nat × String)) : Except B3.PyErr (List (Nat × PropInfo)) := do
  let callers := callersOf functions
  let callees := calleesOf functions
  let labels0 := initLabels rwResults crtResults
  let stringRefs := buildStringRefMap immRefs strings
  let sortedAddrs := B3.GlobalMap.sortNats ((functions.map (·.start)).dedup)
  let (labels1, prop1) := clusterIterations sortedAddrs callers callees
    MAX_CLUSTER_ITERATIONS labels0 []
  let (labels2, prop2) := rwRegionPropagation sortedAddrs callers callees labels1 prop1
  let (labels3, prop3) := proximityRounds sortedAddrs 20 labels2 prop2
  let (labels4, prop4) := classifyRwConsumers sortedAddrs callees labels3 prop3
  let (labels5, prop5) ← classifyXdkCallers sortedAddrs callees labels4 prop4
  let (_, prop6) := classifyGameSubcategories sortedAddrs stringRefs labels5 prop5
  return prop6

/-- The CRT/RW overlap removal in identify.run (lines 91-94): any CRT match
whose address also has an RW classification is deleted, so the RW (library)
classification wins. -/
def removeCrtRwOverlaps (crtResults : List (Nat × CrtInfo))
    (rwResults : List (Nat × RwInfo)) : List (Nat × CrtInfo) :=
  crtResults.filter fun p => (B3.alookup rwResults p.1).isNone

/-- One enriched record of identified_functions.json (output.py). -/
structure EnrichedEntry where
  start : Nat
  stop : Nat := 0
  size : Nat := 0
  name : String := ""
  sectionName : String := ""
  category : String
  identifiedName : Option String := none
  module : Option String := none
  sourceFile : Option String := none
  subcategory : Option String := none
  confidence : ℚ := 0
  method : String := "none"
  stubType : Option String := none
  vtableAddr : Option Nat := none
  vtableIndex : Option Nat := none
  deriving Repr, DecidableEq

/-- Classification chosen for one function in output._build_enriched_db:
crt, else rw, else propagated, else stub, else unknown. -/
def enrichedEntryFor (f : FuncJson) (crtResults : List (Nat × CrtInfo))
    (rwResults : List (Nat × RwInfo)) (propagated : List (Nat × PropInfo))
    (stubResults : List (Nat × StubInfo)) : EnrichedEntry :=
  let base : EnrichedEntry :=
    { start := f.start, stop := f.stop, size := f.size, name := f.name,
      sectionName := f.sectionName, category := "unknown" }
  match B3.alookup crtResults f.start with
  | some info =>
    { base with category := "crt", identifiedName := some info.name,
                confidence := info.confidence, method := info.method }
  | none =>
    match B3.alookup rwResults f.start with
    | some info =>
      { base with category := info.category, module := some info.module,
                  sourceFile := some info.sourceFile,
                  confidence := info.confidence, method := info.method }
    | none =>
      match B3.alookup propagated f.start with
      | some info =>
        { base with category := info.category, subcategory := info.subcategory,
                    confidence := info.confidence, method := info.method,
                    vtableAddr := info.vtableAddr, vtableIndex := info.vtableIndex }
      | none =>
        match B3.alookup stubResults f.start with
        | some info =>
          { base with category := info.category, stubType := some info.stubType,
                      confidence := info.confidence, method := info.method }
        | none => { base with category := "unknown", confidence := 0, method := "none" }

/-- output._build_enriched_db: one enriched entry per function record. -/
def buildEnrichedDb (functions : List FuncJson) (crtResults : List (Nat × CrtInfo))
    (rwResults : List (Nat × RwInfo)) (propagated : List (Nat × PropInfo))
    (stubResults : List (Nat × StubInfo)) : List EnrichedEntry :=
  functions.map fun f => enrichedEntryFor f crtResults rwResults propagated stubResults

end B3.FuncId

namespace B3.Xbe

/-!
Embedding of tools/xbe_parser/xbe_parser.py: XBEParser.parse and its helper
phases, in the Except monad over PyErr.  Byte buffers follow Python
semantics: slicing never raises and clamps its bounds, while
struct.unpack_from raises struct.error when the (possibly negative,
end-relative) offset does not leave enough bytes.
-/

/-- XOR keys from the constants block. -/
def ENTRY_RETAIL_XOR : Nat := 0xA8FC57AB
def ENTRY_DEBUG_XOR : Nat := 0x94859D4B
def THUNK_RETAIL_XOR : Nat := 0x5B6D40B6
def THUNK_DEBUG_XOR : Nat := 0xEFB1F152

/-- Resolve one Python slice index: negative counts from the end and the
result is clamped into [0, len]. -/
def pySliceIdx (len : Nat) (i : Int) : Nat :=
  let j := if i < 0 then i + len else i
  if j < 0 then 0 else if j > len then len else j.toNat

/-- Python byte-slice data[a:b]: never raises. -/
def pySlice (data : List Nat) (a b : Int) : List Nat :=
  (data.take (pySliceIdx data.length b)).drop (pySliceIdx data.length a)

/-- _read_bytes: self.data[offset:offset + size]. -/
def readBytes (data : List Nat) (off : Int) (size : Nat) : List Nat :=
  pySlice data off (off + size)

/-- struct.unpack_from offset resolution: a negative offset counts from the
end; the read fails unless size bytes fit. -/
def unpackOff (len size : Nat) (off : Int) : Option Nat :=
  let o := if off < 0 then off + len else off
  if 0 ≤ o ∧ o + size ≤ len then some o.toNat else none

/-- _read_u32: little-endian u32 via struct.unpack_from, raising
struct.error when out of range. -/
def readU32 (data : List Nat) (off : Int) : Except B3.PyErr Nat :=
  match unpackOff data.length 4 off with
  | some o =>
    .ok (data.getD o 0 + 256 * data.getD (o + 1) 0 +
         65536 * data.getD (o + 2) 0 + 16777216 * data.getD (o + 3) 0)
  | none => .error .structError

/-- _read_u16: little-endian u16 via struct.unpack_from. -/
def readU16 (data : List Nat) (off : Int) : Except B3.PyErr Nat :=
  match unpackOff data.length 2 off with
  | some o => .ok (data.getD o 0 + 256 * data.getD (o + 1) 0)
  | none => .error .structError

/-- _read_string: bytes from offset up to the first NUL within max_len
(or the whole window when none), decoded as ASCII with replacement. -/
def readString (data : List Nat) (offset : Nat) (maxLen : Nat) : String :=
  let window := (data.drop offset).take maxLen
  let upto := window.takeWhile (fun b => b ≠ 0)
  String.mk (upto.map fun b => if b < 128 then Char.ofNat b else '�')

/-- Ordinal-to-name table KERNEL_EXPORTS, as an association list. -/
def KERNEL_EXPORTS : List (Nat × String) :=
  [(1, "AvGetSavedDataAddress"),
   (2, "AvSendTVEncoderOption"),
   (3, "AvSetDisplayMode"),
   (4, "AvSetSavedDataAddress"),
   (14, "DbgPrint"),
   (15, "ExAllocatePool"),
   (16, "ExAllocatePoolWithTag"),
   (17, "ExEventObjectType"),
   (18, "ExFreePool"),
   (22, "ExMutantObjectType"),
   (24, "ExQueryPoolBlockSize"),
   (25, "ExQueryNonVolatileSetting"),
   (26, "ExReadWriteRefurbInfo"),
   (27, "ExRaiseException"),
   (28, "ExRaiseStatus"),
   (29, "ExSaveNonVolatileSetting"),
   (30, "ExSemaphoreObjectType"),
   (35, "ExRegisterThreadNotification"),
   (36, "ExSetTimerResolution"),
   (37, "FscGetCacheSize"),
   (38, "FscInvalidateIdleBlocks"),
   (39, "FscSetCacheSize"),
   (40, "HalClearSoftwareInterrupt"),
   (41, "HalDisableSystemInterrupt"),
   (43, "HalEnableSystemInterrupt"),
   (44, "HalGetInterruptVector"),
   (46, "HalReadSMCTrayState"),
   (47, "HalReadWritePCISpace"),
   (48, "HalRegisterShutdownNotification"),
   (49, "HalRequestSoftwareInterrupt"),
   (50, "HalReturnToFirmware"),
   (51, "HalWriteSMBusValue"),
   (52, "InterlockedCompareExchange"),
   (53, "InterlockedDecrement"),
   (54, "InterlockedIncrement"),
   (55, "InterlockedExchange"),
   (56, "InterlockedExchangeAdd"),
   (57, "InterlockedFlushSList"),
   (58, "InterlockedPopEntrySList"),
   (59, "InterlockedPushEntrySList"),
   (60, "IoAllocateIrp"),
   (61, "IoBuildAsynchronousFsdRequest"),
   (62, "IoBuildDeviceIoControlRequest"),
   (63, "IoBuildSynchronousFsdRequest"),
   (64, "IoCheckShareAccess"),
   (65, "IoCompletionObjectType"),
   (66, "IoCreateDevice"),
   (67, "IoCreateFile"),
   (68, "IoCreateSymbolicLink"),
   (69, "IoDeleteDevice"),
   (70, "IoDeleteSymbolicLink"),
   (71, "IoDeviceObjectType"),
   (72, "IoFileObjectType"),
   (73, "IoFreeIrp"),
   (74, "IoInitializeIrp"),
   (76, "IoMarkIrpMustComplete"),
   (77, "IoQueryFileInformation"),
   (78, "IoQueryVolumeInformation"),
   (79, "IoQueueThreadIrp"),
   (80, "IoRemoveShareAccess"),
   (81, "IoSetIoCompletion"),
   (82, "IoSetShareAccess"),
   (83, "IoStartNextPacket"),
   (84, "IoStartNextPacketByKey"),
   (85, "IoStartPacket"),
   (86, "IoSynchronousDeviceIoControlRequest"),
   (87, "IoSynchronousFsdRequest"),
   (88, "IofCallDriver"),
   (89, "IofCompleteRequest"),
   (90, "KdDebuggerEnabled"),
   (91, "KdDebuggerNotPresent"),
   (92, "IoDismountVolume"),
   (93, "IoDismountVolumeByName"),
   (94, "KeAlertResumeThread"),
   (95, "KeAlertThread"),
   (96, "KeBoostPriorityThread"),
   (97, "KeBugCheck"),
   (98, "KeBugCheckEx"),
   (99, "KeCancelTimer"),
   (100, "KeConnectInterrupt"),
   (101, "KeDelayExecutionThread"),
   (102, "KeDisconnectInterrupt"),
   (103, "KeEnterCriticalRegion"),
   (104, "KeGetCurrentIrql"),
   (107, "KeInitializeDpc"),
   (108, "KeInitializeEvent"),
   (109, "KeInitializeInterrupt"),
   (110, "KeInitializeMutant"),
   (112, "KeInitializeSemaphore"),
   (113, "KeInitializeTimerEx"),
   (114, "KeInsertByKeyDeviceQueue"),
   (115, "KeInsertDeviceQueue"),
   (116, "KeInsertHeadQueue"),
   (117, "KeInsertQueue"),
   (118, "KeInsertQueueApc"),
   (119, "KeInsertQueueDpc"),
   (120, "KeInterruptTime"),
   (121, "KeIsExecutingDpc"),
   (122, "KeLeaveCriticalRegion"),
   (123, "KePulseEvent"),
   (124, "KeQueryBasePriorityThread"),
   (125, "KeQueryInterruptTime"),
   (126, "KeQueryPerformanceCounter"),
   (127, "KeQueryPerformanceFrequency"),
   (128, "KeQuerySystemTime"),
   (129, "KeRaiseIrqlToDpcLevel"),
   (130, "KeRaiseIrqlToSynchLevel"),
   (131, "KeReleaseMutant"),
   (132, "KeReleaseSemaphore"),
   (133, "KeRemoveByKeyDeviceQueue"),
   (134, "KeRemoveDeviceQueue"),
   (135, "KeRemoveEntryDeviceQueue"),
   (136, "KeRemoveQueue"),
   (137, "KeRemoveQueueDpc"),
   (138, "KeResetEvent"),
   (139, "KeRestoreFloatingPointState"),
   (140, "KeResumeThread"),
   (141, "KeRundownQueue"),
   (142, "KeSaveFloatingPointState"),
   (143, "KeSetBasePriorityThread"),
   (144, "KeSetDisableBoostThread"),
   (145, "KeSetEvent"),
   (146, "KeSetEventBoostPriority"),
   (147, "KeSetPriorityProcess"),
   (148, "KeSetPriorityThread"),
   (149, "KeSetTimer"),
   (150, "KeSetTimerEx"),
   (151, "KeStallExecutionProcessor"),
   (152, "KeSuspendThread"),
   (153, "KeSynchronizeExecution"),
   (154, "KeSystemTime"),
   (155, "KeTestAlertThread"),
   (156, "KeTickCount"),
   (157, "KeTimeIncrement"),
   (158, "KeWaitForMultipleObjects"),
   (159, "KeWaitForSingleObject"),
   (160, "KfRaiseIrql"),
   (161, "KfLowerIrql"),
   (162, "KiBugCheckData"),
   (163, "KiUnlockDispatcherDatabase"),
   (164, "LaunchDataPage"),
   (165, "MmAllocateContiguousMemory"),
   (166, "MmAllocateContiguousMemoryEx"),
   (167, "MmAllocateSystemMemory"),
   (168, "MmClaimGpuInstanceMemory"),
   (169, "MmCreateKernelStack"),
   (170, "MmDeleteKernelStack"),
   (171, "MmFreeContiguousMemory"),
   (172, "MmFreeSystemMemory"),
   (173, "MmGetPhysicalAddress"),
   (174, "MmIsAddressValid"),
   (175, "MmLockUnlockBufferPages"),
   (176, "MmLockUnlockPhysicalPage"),
   (177, "MmMapIoSpace"),
   (178, "MmPersistContiguousMemory"),
   (179, "MmQueryAddressProtect"),
   (180, "MmQueryAllocationSize"),
   (181, "MmQueryStatistics"),
   (182, "MmSetAddressProtect"),
   (183, "MmUnmapIoSpace"),
   (184, "NtAllocateVirtualMemory"),
   (185, "NtCancelTimer"),
   (186, "NtClearEvent"),
   (187, "NtClose"),
   (188, "NtCreateDirectoryObject"),
   (189, "NtCreateEvent"),
   (190, "NtCreateFile"),
   (191, "NtCreateIoCompletion"),
   (192, "NtCreateMutant"),
   (193, "NtCreateSemaphore"),
   (194, "NtCreateTimer"),
   (195, "NtDeleteFile"),
   (196, "NtDeviceIoControlFile"),
   (197, "NtDuplicateObject"),
   (198, "NtFlushBuffersFile"),
   (199, "NtFreeVirtualMemory"),
   (200, "NtFsControlFile"),
   (201, "NtOpenDirectoryObject"),
   (202, "NtOpenFile"),
   (203, "NtOpenSymbolicLinkObject"),
   (204, "NtProtectVirtualMemory"),
   (205, "NtPulseEvent"),
   (206, "NtQueueApcThread"),
   (207, "NtQueryDirectoryFile"),
   (208, "NtQueryDirectoryObject"),
   (209, "NtQueryEvent"),
   (210, "NtQueryFullAttributesFile"),
   (211, "NtQueryInformationFile"),
   (212, "NtQueryIoCompletion"),
   (213, "NtQueryMutant"),
   (214, "NtQuerySemaphore"),
   (215, "NtQuerySymbolicLinkObject"),
   (216, "NtQueryTimer"),
   (217, "NtQueryVirtualMemory"),
   (218, "NtQueryVolumeInformationFile"),
   (219, "NtReadFile"),
   (220, "NtReadFileScatter"),
   (221, "NtReleaseMutant"),
   (222, "NtReleaseSemaphore"),
   (223, "NtRemoveIoCompletion"),
   (224, "NtResumeThread"),
   (225, "NtSetEvent"),
   (226, "NtSetInformationFile"),
   (227, "NtSetIoCompletion"),
   (228, "NtSetSystemTime"),
   (229, "NtSetTimerEx"),
   (230, "NtSignalAndWaitForSingleObject"),
   (231, "NtSuspendThread"),
   (232, "NtUserIoApcDispatcher"),
   (233, "NtWaitForMultipleObjectsEx"),
   (234, "NtWaitForSingleObject"),
   (235, "NtWaitForSingleObjectEx"),
   (236, "NtWriteFile"),
   (237, "NtWriteFileGather"),
   (238, "NtYieldExecution"),
   (239, "ObCreateObject"),
   (240, "ObDirectoryObjectType"),
   (241, "ObInsertObject"),
   (242, "ObMakeTemporaryObject"),
   (243, "ObOpenObjectByName"),
   (244, "ObOpenObjectByPointer"),
   (245, "ObpObjectHandleTable"),
   (246, "ObReferenceObjectByHandle"),
   (247, "ObReferenceObjectByName"),
   (248, "ObReferenceObjectByPointer"),
   (249, "ObSymbolicLinkObjectType"),
   (250, "ObfDereferenceObject"),
   (251, "ObfReferenceObject"),
   (252, "PhyGetLinkState"),
   (253, "PhyInitialize"),
   (254, "PsCreateSystemThread"),
   (255, "PsCreateSystemThreadEx"),
   (256, "PsQueryStatistics"),
   (257, "PsSetCreateThreadNotifyRoutine"),
   (258, "PsTerminateSystemThread"),
   (259, "PsThreadObjectType"),
   (260, "RtlAnsiStringToUnicodeString"),
   (261, "RtlAppendStringToString"),
   (262, "RtlAppendUnicodeStringToString"),
   (263, "RtlAppendUnicodeToString"),
   (264, "RtlAssert"),
   (265, "RtlCaptureContext"),
   (266, "RtlCaptureStackBackTrace"),
   (267, "RtlCharToInteger"),
   (268, "RtlCompareMemory"),
   (269, "RtlCompareMemoryUlong"),
   (270, "RtlCompareString"),
   (271, "RtlCompareUnicodeString"),
   (272, "RtlCopyString"),
   (273, "RtlCopyUnicodeString"),
   (274, "RtlCreateUnicodeString"),
   (275, "RtlDowncaseUnicodeChar"),
   (276, "RtlDowncaseUnicodeString"),
   (277, "RtlEnterCriticalSection"),
   (278, "RtlEnterCriticalSectionAndRegion"),
   (279, "RtlEqualString"),
   (280, "RtlEqualUnicodeString"),
   (281, "RtlExtendedIntegerMultiply"),
   (282, "RtlExtendedLargeIntegerDivide"),
   (283, "RtlExtendedMagicDivide"),
   (284, "RtlFillMemory"),
   (285, "RtlFillMemoryUlong"),
   (286, "RtlFreeAnsiString"),
   (287, "RtlFreeUnicodeString"),
   (288, "RtlGetCallersAddress"),
   (289, "RtlInitAnsiString"),
   (290, "RtlInitUnicodeString"),
   (291, "RtlInitializeCriticalSection"),
   (292, "RtlIntegerToChar"),
   (293, "RtlIntegerToUnicodeString"),
   (294, "RtlLeaveCriticalSection"),
   (295, "RtlLeaveCriticalSectionAndRegion"),
   (296, "RtlLowerChar"),
   (297, "RtlMapGenericMask"),
   (298, "RtlMoveMemory"),
   (299, "RtlMultiByteToUnicodeN"),
   (300, "RtlMultiByteToUnicodeSize"),
   (301, "RtlNtStatusToDosError"),
   (302, "RtlRaiseException"),
   (303, "RtlRaiseStatus"),
   (304, "RtlTimeFieldsToTime"),
   (305, "RtlTimeToTimeFields"),
   (306, "RtlTryEnterCriticalSection"),
   (307, "RtlUlongByteSwap"),
   (308, "RtlUnicodeStringToAnsiString"),
   (309, "RtlUnicodeStringToInteger"),
   (310, "RtlUnicodeToMultiByteN"),
   (311, "RtlUnicodeToMultiByteSize"),
   (312, "RtlUnwind"),
   (313, "RtlUpcaseUnicodeChar"),
   (314, "RtlUpcaseUnicodeString"),
   (315, "RtlUpcaseUnicodeToMultiByteN"),
   (316, "RtlUpperChar"),
   (317, "RtlUpperString"),
   (318, "RtlUshortByteSwap"),
   (319, "RtlWalkFrameChain"),
   (320, "RtlZeroMemory"),
   (321, "XboxEEPROMKey"),
   (322, "XboxHardwareInfo"),
   (323, "XboxHDKey"),
   (324, "XboxKrnlVersion"),
   (325, "XboxSignatureKey"),
   (326, "XboxLANKey"),
   (327, "XboxAlternateSignatureKeys"),
   (328, "XeImageFileName"),
   (329, "XeLoadSection"),
   (330, "XeUnloadSection"),
   (331, "READ_PORT_BUFFER_UCHAR"),
   (332, "READ_PORT_BUFFER_USHORT"),
   (333, "READ_PORT_BUFFER_ULONG"),
   (334, "WRITE_PORT_BUFFER_UCHAR"),
   (335, "WRITE_PORT_BUFFER_USHORT"),
   (336, "WRITE_PORT_BUFFER_ULONG"),
   (337, "XcSHAInit"),
   (338, "XcSHAUpdate"),
   (339, "XcSHAFinal"),
   (340, "XcRC4Key"),
   (341, "XcRC4Crypt"),
   (342, "XcHMAC"),
   (343, "XcPKEncPublic"),
   (344, "XcPKDecPrivate"),
   (345, "XcPKGetKeyLen"),
   (346, "XcVerifyPKCS1Signature"),
   (347, "XcModExp"),
   (348, "XcDESKeyParity"),
   (349, "XcKeyTable"),
   (350, "XcBlockCrypt"),
   (351, "XcBlockCryptCBC"),
   (352, "XcCryptService"),
   (353, "XcUpdateCrypto"),
   (354, "RtlRip"),
   (355, "XboxLANKey"),
   (356, "XboxAlternateSignatureKeys"),
   (357, "XePublicKeyData"),
   (358, "HalIsResetOrShutdownPending"),
   (359, "IoMarkIrpMustComplete"),
   (360, "HalInitiateShutdown"),
   (361, "RtlSnprintf"),
   (362, "RtlSprintf"),
   (363, "RtlVsnprintf"),
   (364, "RtlVsprintf"),
   (365, "HalEnableSecureTrayEject"),
   (366, "HalWriteSMCScratchRegister")]

/-- KERNEL_EXPORTS.get(ordinal, f"Unknown_{ordinal}"). -/
def kernelExportsGet (ordinal : Nat) : String :=
  (B3.alookup KERNEL_EXPORTS ordinal).getD ("Unknown_" ++ toString ordinal)

/-- XBEHeader (xbe_parser.py): the parsed header fields, with the decoded
entry point, debug flag and kernel-thunk address filled in by
_parse_header. -/
structure XBEHeader where
  magic : List Nat
  signature : List Nat
  baseAddress : Nat
  headersSize : Nat
  imageSize : Nat
  imageHeaderSize : Nat
  timestamp : Nat
  certificateAddr : Nat
  numSections : Nat
  sectionHeadersAddr : Nat
  initFlags : Nat
  entryPointRaw : Nat
  tlsAddr : Nat
  peStackCommit : Nat
  peHeapReserve : Nat
  peHeapCommit : Nat
  peBaseAddress : Nat
  peSizeOfImage : Nat
  peChecksum : Nat
  peTimedate : Nat
  debugPathnameAddr : Nat
  debugFilenameAddr : Nat
  debugUnicodeFilenameAddr : Nat
  kernelThunkAddrRaw : Nat
  nonKernelImportDirAddr : Nat
  numLibraryVersions : Nat
  libraryVersionsAddr : Nat
  kernelLibraryVersionAddr : Nat
  xapiLibraryVersionAddr : Nat
  logoBitmapAddr : Nat
  logoBitmapSize : Nat
  entryPoint : Nat := 0
  isDebug : Bool := false
  kernelThunkAddr : Nat := 0
  deriving Repr

/-- XBESectionHeader (xbe_parser.py). -/
structure XBESectionHeader where
  flags : Nat
  virtualAddr : Nat
  virtualSize : Nat
  rawAddr : Nat
  rawSize : Nat
  sectionNameAddr : Nat
  sectionNameRefcount : Nat
  headSharedPageRefcountAddr : Nat
  tailSharedPageRefcountAddr : Nat
  sectionDigest : List Nat
  name : String := ""
  deriving Repr

/-- XBECertificate (xbe_parser.py); the UTF-16 title decode is value-only,
so the raw title bytes are kept. -/
structure XBECertificate where
  size : Nat
  timestamp : Nat
  titleId : Nat
  titleNameRaw : List Nat
  altTitleIds : List Nat
  allowedMedia : Nat
  gameRegion : Nat
  gameRatings : Nat
  discNumber : Nat
  version : Nat
  lanKey : List Nat
  signatureKey : List Nat
  altSignatureKeys : List (List Nat)
  deriving Repr

/-- XBELibraryVersion (xbe_parser.py); the ASCII name decode is value-only,
so the raw name bytes are kept. -/
structure XBELibraryVersion where
  nameRaw : List Nat
  major : Nat
  minor : Nat
  build : Nat
  flags : Nat
  deriving Repr

/-- XBEKernelImport (xbe_parser.py). -/
structure XBEKernelImport where
  ordinal : Nat
  name : String
  thunkAddr : Nat
  deriving Repr

/-- XBETLSDirectory (xbe_parser.py). -/
structure XBETLSDirectory where
  rawDataStart : Nat
  rawDataEnd : Nat
  tlsIndexAddr : Nat
  callbacksAddr : Nat
  zeroFillSize : Nat
  characteristics : Nat
  deriving Repr

/-- XBEFile (xbe_parser.py), without the raw_data back-pointer. -/
structure XBEFile where
  header : XBEHeader
  certificate : XBECertificate
  sections : List XBESectionHeader
  libraries : List XBELibraryVersion
  kernelImports : List XBEKernelImport
  tls : Option XBETLSDirectory
  debugPathname : String
  debugFilename : String
  deriving Repr

/-- _parse_header: the fixed-offset field reads followed by the XOR decode
of the entry point and kernel-thunk address. -/
def parseHeader (data : List Nat) : Except B3.PyErr XBEHeader := do
  let magic := readBytes data 0 4
  let signature := readBytes data 0x0004 256
  let baseAddress ← readU32 data 0x0104
  let headersSize ← readU32 data 0x0108
  let imageSize ← readU32 data 0x010C
  let imageHeaderSize ← readU32 data 0x0110
  let timestamp ← readU32 data 0x0114
  let certificateAddr ← readU32 data 0x0118
  let numSections ← readU32 data 0x011C
  let sectionHeadersAddr ← readU32 data 0x0120
  let initFlags ← readU32 data 0x0124
  let entryPointRaw ← readU32 data 0x0128
  let tlsAddr ← readU32 data 0x012C
  let peStackCommit ← readU32 data 0x0130
  let peHeapReserve ← readU32 data 0x0134
  let peHeapCommit ← readU32 data 0x0138
  let peBaseAddress ← readU32 data 0x013C
  let peSizeOfImage ← readU32 data 0x0140
  let peChecksum ← readU32 data 0x0144
  let peTimedate ← readU32 data 0x0148
  let debugPathnameAddr ← readU32 data 0x014C
  let debugFilenameAddr ← readU32 data 0x0150
  let debugUnicodeFilenameAddr ← readU32 data 0x0154
  let kernelThunkAddrRaw ← readU32 data 0x0158
  let nonKernelImportDirAddr ← readU32 data 0x015C
  let numLibraryVersions ← readU32 data 0x0160
  let libraryVersionsAddr ← readU32 data 0x0164
  let kernelLibraryVersionAddr ← readU32 data 0x0168
  let xapiLibraryVersionAddr ← readU32 data 0x016C
  let logoBitmapAddr ← readU32 data 0x0170
  let logoBitmapSize ← readU32 data 0x0174
  let entryRetail := (Nat.xor entryPointRaw ENTRY_RETAIL_XOR) &&& 0xFFFFFFFF
  let entryDebug := (Nat.xor entryPointRaw ENTRY_DEBUG_XOR) &&& 0xFFFFFFFF
  let inRetail := baseAddress ≤ entryRetail ∧ entryRetail < baseAddress + imageSize
  let inDebug := baseAddress ≤ entryDebug ∧ entryDebug < baseAddress + imageSize
  let entryPoint := if inRetail then entryRetail else if inDebug then entryDebug else entryRetail
  let isDebug := if inRetail then false else if inDebug then true else false
  let thunkRetail := (Nat.xor kernelThunkAddrRaw THUNK_RETAIL_XOR) &&& 0xFFFFFFFF
  let thunkDebug := (Nat.xor kernelThunkAddrRaw THUNK_DEBUG_XOR) &&& 0xFFFFFFFF
  let kernelThunkAddr := if isDebug then thunkDebug else thunkRetail
  return { magic, signature, baseAddress, headersSize, imageSize, imageHeaderSize,
           timestamp, certificateAddr, numSections, sectionHeadersAddr, initFlags,
           entryPointRaw, tlsAddr, peStackCommit, peHeapReserve, peHeapCommit,
           peBaseAddress, peSizeOfImage, peChecksum, peTimedate, debugPathnameAddr,
           debugFilenameAddr, debugUnicodeFilenameAddr, kernelThunkAddrRaw,
           nonKernelImportDirAddr, numLibraryVersions, libraryVersionsAddr,
           kernelLibraryVersionAddr, xapiLibraryVersionAddr, logoBitmapAddr,
           logoBitmapSize, entryPoint, isDebug, kernelThunkAddr }

/-- _parse_sections: 56-byte section headers at section_headers_addr - base,
with the optional in-header name read. -/
def parseSections (data : List Nat) (header : XBEHeader) :
    Except B3.PyErr (List XBESectionHeader) := do
  let base : Int := header.baseAddress
  let secHdrOffset : Int := (header.sectionHeadersAddr : Int) - base
  (List.range header.numSections).mapM fun i => do
    let off : Int := secHdrOffset + i * 56
    let flags ← readU32 data (off + 0)
    let virtualAddr ← readU32 data (off + 4)
    let virtualSize ← readU32 data (off + 8)
    let rawAddr ← readU32 data (off + 12)
    let rawSize ← readU32 data (off + 16)
    let sectionNameAddr ← readU32 data (off + 20)
    let sectionNameRefcount ← readU32 data (off + 24)
    let headSharedPageRefcountAddr ← readU32 data (off + 28)
    let tailSharedPageRefcountAddr ← readU32 data (off + 32)
    let sectionDigest := readBytes data (off + 36) 20
    let name :=
      if sectionNameAddr ≠ 0 then
        let nameOff : Int := (sectionNameAddr : Int) - base
        if 0 ≤ nameOff ∧ nameOff < (data.length : Int) then
          readString data nameOff.toNat 32
        else ""
      else ""
    return { flags, virtualAddr, virtualSize, rawAddr, rawSize, sectionNameAddr,
             sectionNameRefcount, headSharedPageRefcountAddr,
             tailSharedPageRefcountAddr, sectionDigest, name }

/-- _parse_certificate at certificate_addr - base. -/
def parseCertificate (data : List Nat) (header : XBEHeader) :
    Except B3.PyErr XBECertificate := do
  let base : Int := header.baseAddress
  let off : Int := (header.certificateAddr : Int) - base
  let titleNameRaw := readBytes data (off + 12) 80
  let altTitleIds ← (List.range 16).mapM fun i => readU32 data (off + 92 + i * 4)
  let altSignatureKeys := (List.range 16).map fun i =>
    readBytes data (off + 0x01AC + i * 16) 16
  let size ← readU32 data (off + 0)
  let timestamp ← readU32 data (off + 4)
  let titleId ← readU32 data (off + 8)
  let allowedMedia ← readU32 data (off + 156)
  let gameRegion ← readU32 data (off + 160)
  let gameRatings ← readU32 data (off + 164)
  let discNumber ← readU32 data (off + 168)
  let version ← readU32 data (off + 172)
  let lanKey := readBytes data (off + 176) 16
  let signatureKey := readBytes data (off + 192) 16
  return { size, timestamp, titleId, titleNameRaw, altTitleIds, allowedMedia,
           gameRegion, gameRatings, discNumber, version, lanKey, signatureKey,
           altSignatureKeys }

/-- _parse_libraries: 16-byte entries at library_versions_addr - base,
skipped when the address is zero or the count is zero. -/
def parseLibraries (data : List Nat) (header : XBEHeader) :
    Except B3.PyErr (List XBELibraryVersion) := do
  if header.libraryVersionsAddr = 0 ∨ header.numLibraryVersions = 0 then
    return []
  else
    let base : Int := header.baseAddress
    let off : Int := (header.libraryVersionsAddr : Int) - base
    (List.range header.numLibraryVersions).mapM fun i => do
      let libOff : Int := off + i * 16
      let nameRaw := readBytes data libOff 8
      let major ← readU16 data (libOff + 8)
      let minor ← readU16 data (libOff + 10)
      let build ← readU16 data (libOff + 12)
      let flags ← readU16 data (libOff + 14)
      return { nameRaw, major, minor, build, flags }

/-- Scan loop of _parse_kernel_imports: 32-bit words from the thunk file
offset, stopping at a zero word or the end of the buffer; high-bit words
contribute an import.  The fuel computed by the caller covers every
iteration the while loop can make. -/
def kernelImportLoop (data : List Nat) (kernelThunkAddr : Nat) (thunkFileOff : Int) :
    Nat → Int → List XBEKernelImport → Except B3.PyErr (List XBEKernelImport)
  | 0, _, acc => .ok acc
  | fuel + 1, off, acc =>
    if off + 4 ≤ (data.length : Int) then do
      let val ← readU32 data off
      if val = 0 then .ok acc
      else
        let acc' :=
          if val &&& 0x80000000 ≠ 0 then
            let ordinal := val &&& 0x7FFFFFFF
            acc ++ [{ ordinal, name := kernelExportsGet ordinal,
                      thunkAddr := ((kernelThunkAddr : Int) + (off - thunkFileOff)).toNat }]
          else acc
        kernelImportLoop data kernelThunkAddr thunkFileOff fuel (off + 4) acc'
    else .ok acc

/-- _parse_kernel_imports: locate the thunk table through the section list
(falling back to the header area) and scan it. -/
def parseKernelImports (data : List Nat) (header : XBEHeader)
    (sections : List XBESectionHeader) : Except B3.PyErr (List XBEKernelImport) := do
  if header.kernelThunkAddr = 0 then
    return []
  else
    let base : Int := header.baseAddress
    let containing := sections.find? fun sec =>
      decide (sec.virtualAddr ≤ header.kernelThunkAddr) &&
      decide (header.kernelThunkAddr < sec.virtualAddr + sec.virtualSize)
    let thunkFileOff : Int :=
      match containing with
      | some sec => (sec.rawAddr : Int) + ((header.kernelThunkAddr : Int) - sec.virtualAddr)
      | none => (header.kernelThunkAddr : Int) - base
    let fuel := (((data.length : Int) - thunkFileOff).toNat) / 4 + 2
    kernelImportLoop data header.kernelThunkAddr thunkFileOff fuel thunkFileOff []

/-- _va_to_file: header-area addresses map linearly, others through the
section table, with a flat-mapping fallback. -/
def vaToFile (sections : List XBESectionHeader) (va base : Nat) : Int :=
  if va < base + 0x1000 then (va : Int) - base
  else
    match sections.find? (fun sec =>
      decide (sec.virtualAddr ≤ va) && decide (va < sec.virtualAddr + sec.virtualSize)) with
    | some sec => (sec.rawAddr : Int) + ((va : Int) - sec.virtualAddr)
    | none => (va : Int) - base

/-- _parse_tls at the translated TLS address, skipped when tls_addr is
zero. -/
def parseTLS (data : List Nat) (header : XBEHeader)
    (sections : List XBESectionHeader) : Except B3.PyErr (Option XBETLSDirectory) := do
  if header.tlsAddr = 0 then
    return none
  else
    let off := vaToFile sections header.tlsAddr header.baseAddress
    let rawDataStart ← readU32 data (off + 0)
    let rawDataEnd ← readU32 data (off + 4)
    let tlsIndexAddr ← readU32 data (off + 8)
    let callbacksAddr ← readU32 data (off + 12)
    let zeroFillSize ← readU32 data (off + 16)
    let characteristics ← readU32 data (off + 20)
    return some { rawDataStart, rawDataEnd, tlsIndexAddr, callbacksAddr,
                  zeroFillSize, characteristics }

/-- Best-effort debug-string read at the end of parse: the source wraps the
read in try/except pass, so the embedded form returns the empty string on
any out-of-range offset. -/
def debugStringAt (data : List Nat) (sections : List XBESectionHeader)
    (addr base : Nat) : String :=
  if addr ≠ 0 then
    let off := vaToFile sections addr base
    if 0 ≤ off ∧ off < (data.length : Int) then readString data off.toNat 256 else ""
  else ""

/-- XBEParser.parse: magic validation, then header, sections, certificate,
libraries, kernel imports, TLS and debug strings, in source order.  The
only typed failure the source raises itself is the ValueError on a bad
magic (whose message carries the offending bytes, elided here); every other
failure surfaces as an untyped struct.error from a field read.  No check
compares the section table position against the header. -/
def parse (data : List Nat) : Except B3.PyErr XBEFile := do
  let magic := readBytes data 0 4
  if magic ≠ [0x58, 0x42, 0x45, 0x48] then
    .error (.valueError "Invalid XBE magic")
  else
    let header ← parseHeader data
    let sections ← parseSections data header
    let cert ← parseCertificate data header
    let libraries ← parseLibraries data header
    let kernelImports ← parseKernelImports data header sections
    let tls ← parseTLS data header sections
    let debugPathname := debugStringAt data sections header.debugPathnameAddr header.baseAddress
    let debugFilename := debugStringAt data sections header.debugFilenameAddr header.baseAddress
    return { header, certificate := cert, sections, libraries, kernelImports,
             tls, debugPathname, debugFilename }

end B3.Xbe

namespace B3.Recomp

/-!
Embedding of tools/recomp: disasm.py instruction/operand records and
lifter.py operand formatting, the condition-code table, condition synthesis
for the cmp/test + jcc idiom, conditional-goto emission, and the call and
ret lifts.
-/

/-- COND_JUMPS (recomp/disasm.py). -/
def RECOMP_COND_JUMPS : List String :=
  ["jo", "jno", "jb", "jnb", "jae", "je", "jz", "jne", "jnz",
   "jbe", "ja", "jnae", "jna", "js", "jns", "jp", "jnp",
   "jl", "jge", "jle", "jg", "jcxz", "jecxz",
   "loop", "loope", "loopne"]

/-- Operand (recomp/disasm.py).  Absent optional fields are modelled by
their benign defaults: an empty register name (the formatting code treats a
falsy name as 0) and a zero immediate/displacement. -/
structure ROperand where
  type : String
  reg : String := ""
  imm : Int := 0
  memBase : String := ""
  memIndex : String := ""
  memScale : Nat := 1
  memDisp : Int := 0
  memSize : Nat := 0
  deriving Repr, DecidableEq

/-- Instruction (recomp/disasm.py). -/
structure RInsn where
  address : Nat
  size : Nat
  mnemonic : String
  opStr : String := ""
  operands : List ROperand := []
  callTarget : Option Nat := none
  jumpTarget : Option Nat := none
  memoryRefs : List Nat := []
  immValues : List Nat := []
  deriving Repr, DecidableEq

/-- Instruction.is_cond_jump (recomp/disasm.py). -/
def RInsn.isCondJump (i : RInsn) : Bool := RECOMP_COND_JUMPS.contains i.mnemonic

/-- _fmt_imm (lifter.py): zero and single digits in decimal, values above
the signed 32-bit range as zero-padded unsigned hex literals, the rest as
plain hex. -/
def fmtImm (val : Int) : String :=
  if val = 0 then "0"
  else if val ≤ 9 then toString val
  else if val > 0x7FFFFFFF then "0x" ++ B3.hex8 val.toNat ++ "u"
  else "0x" ++ B3.natToHexUpper val.toNat

/-- SUB_REGS (lifter.py _fmt_reg). -/
def SUB_REGS : List (String × String) :=
  [("al", "LO8(eax)"), ("ah", "HI8(eax)"), ("ax", "LO16(eax)"),
   ("bl", "LO8(ebx)"), ("bh", "HI8(ebx)"), ("bx", "LO16(ebx)"),
   ("cl", "LO8(ecx)"), ("ch", "HI8(ecx)"), ("cx", "LO16(ecx)"),
   ("dl", "LO8(edx)"), ("dh", "HI8(edx)"), ("dx", "LO16(edx)"),
   ("si", "LO16(esi)"), ("di", "LO16(edi)"),
   ("bp", "LO16(ebp)"), ("sp", "LO16(esp)")]

/-- Segment register names (lifter.py). -/
def SEG_REGS : List String := ["fs", "gs", "cs", "ds", "es", "ss"]

/-- String-keyed association lookup. -/
def slookup (l : List (String × String)) (k : String) : Option String :=
  match l with
  | [] => none
  | (a, v) :: rest => if k = a then some v else slookup rest k

/-- _fmt_reg (lifter.py). -/
def fmtReg (name : String) : String :=
  if name = "" then "0"
  else if SEG_REGS.contains name then "0 /* seg:" ++ name ++ " */"
  else match slookup SUB_REGS name with
    | some e => e
    | none => name

/-- _mem_accessor (lifter.py). -/
def memAccessor (size : Nat) : String :=
  if size = 1 then "MEM8" else if size = 2 then "MEM16"
  else if size = 4 then "MEM32" else "MEM32"

/-- _fmt_mem (lifter.py): the address expression of a memory operand.  The
inner displacement branch guarded by mem_disp > 0x80000000 inside the
mem_disp < 0 arm is unreachable (a negative value is never above that
bound) and is kept as written. -/
def fmtMem (op : ROperand) : String :=
  let parts : List String := if op.memBase ≠ "" then [fmtReg op.memBase] else []
  let parts :=
    if op.memIndex ≠ "" then
      let idx := fmtReg op.memIndex
      if op.memScale > 1 then parts ++ [idx ++ " * " ++ toString op.memScale]
      else parts ++ [idx]
    else parts
  let parts :=
    if op.memDisp ≠ 0 then
      if op.memDisp < 0 then
        if op.memDisp > 0x80000000 then
          let signedDisp := op.memDisp - 0x100000000
          if parts ≠ [] then parts ++ ["- " ++ fmtImm (-signedDisp)]
          else parts ++ [fmtImm op.memDisp]
        else parts ++ [fmtImm op.memDisp]
      else parts ++ [fmtImm op.memDisp]
    else parts
  if parts = [] then "0" else String.intercalate " + " parts

/-- _fmt_mem_read (lifter.py). -/
def fmtMemRead (op : ROperand) : String :=
  memAccessor op.memSize ++ "(" ++ fmtMem op ++ ")"

/-- _fmt_operand_read (lifter.py). -/
def fmtOperandRead (op : ROperand) : String :=
  if op.type = "reg" then fmtReg op.reg
  else if op.type = "imm" then fmtImm op.imm
  else if op.type = "mem" then fmtMemRead op
  else "/* unknown operand */"

/-- COND_MAP (lifter.py): jcc mnemonic to (cmp_macro, test_macro,
description). -/
def condMap (jcc : String) : Option (Option String × Option String × String) :=
  if jcc = "je" then some (some "CMP_EQ", some "TEST_Z", "equal / zero")
  else if jcc = "jz" then some (some "CMP_EQ", some "TEST_Z", "zero")
  else if jcc = "jne" then some (some "CMP_NE", some "TEST_NZ", "not equal / not zero")
  else if jcc = "jnz" then some (some "CMP_NE", some "TEST_NZ", "not zero")
  else if jcc = "jb" then some (some "CMP_B", none, "below (unsigned <)")
  else if jcc = "jnae" then some (some "CMP_B", none, "below")
  else if jcc = "jae" then some (some "CMP_AE", none, "above or equal (unsigned >=)")
  else if jcc = "jnb" then some (some "CMP_AE", none, "above or equal")
  else if jcc = "jbe" then some (some "CMP_BE", none, "below or equal (unsigned <=)")
  else if jcc = "jna" then some (some "CMP_BE", none, "below or equal")
  else if jcc = "ja" then some (some "CMP_A", none, "above (unsigned >)")
  else if jcc = "jl" then some (some "CMP_L", some "TEST_S", "less (signed <)")
  else if jcc = "jge" then some (some "CMP_GE", none, "greater or equal (signed >=)")
  else if jcc = "jle" then some (some "CMP_LE", none, "less or equal (signed <=)")
  else if jcc = "jg" then some (some "CMP_G", none, "greater (signed >)")
  else if jcc = "js" then some (none, some "TEST_S", "sign (negative)")
  else if jcc = "jns" then some (none, none, "not sign (positive)")
  else if jcc = "jo" then some (none, none, "overflow")
  else if jcc = "jno" then some (none, none, "not overflow")
  else if jcc = "jp" then some (none, none, "parity")
  else if jcc = "jnp" then some (none, none, "not parity")
  else if jcc = "jecxz" then some (none, none, "ecx is zero")
  else if jcc = "jcxz" then some (none, none, "cx is zero")
  else none

/-- fpu_cmp_map inside _make_condition. -/
def fpuCmpOp (jcc : String) : Option String :=
  if jcc = "ja" ∨ jcc = "jnbe" then some ">"
  else if jcc = "jae" ∨ jcc = "jnb" ∨ jcc = "jnc" then some ">="
  else if jcc = "jb" ∨ jcc = "jnae" ∨ jcc = "jc" then some "<"
  else if jcc = "jbe" ∨ jcc = "jna" then some "<="
  else if jcc = "je" ∨ jcc = "jz" then some "=="
  else if jcc = "jne" ∨ jcc = "jnz" then some "!="
  else none

/-- _sse_op inside the comiss branch of _make_condition. -/
def sseOp (op : ROperand) : String :=
  if op.type = "reg" then op.reg
  else if op.type = "mem" then
    if op.memSize = 8 then "MEMD(" ++ fmtMem op ++ ")"
    else "MEMF(" ++ fmtMem op ++ ")"
  else fmtOperandRead op

/-- _make_condition (lifter.py): synthesize the C condition expression for
a conditional instruction from the recorded flag setter, following the
source branch for branch.  A Python None interpolated into an f-string
renders as the text None, which the rhs default reproduces. -/
def makeCondition (jcc flagSetter : String) (flagOps : List ROperand) :
    Option (String × String) :=
  match condMap jcc with
  | none => none
  | some (cmpMacro, testMacro, desc) =>
    let lhsOpt : Option String :=
      match flagOps with
      | a :: _ => some (fmtOperandRead a)
      | [] => none
    let rhsOpt : Option String :=
      match flagOps with
      | _ :: b :: _ => some (fmtOperandRead b)
      | _ => none
    if flagSetter = "fcompi" ∨ flagSetter = "fcomip" ∨ flagSetter = "fucomi" ∨
       flagSetter = "fucompi" ∨ flagSetter = "fucomip" ∨ flagSetter = "fcomi" ∨
       flagSetter = "sahf" then
      match fpuCmpOp jcc with
      | some op => some ("(_fpu_cmp " ++ op ++ " 0) /* " ++ flagSetter ++ " */", desc)
      | none =>
        if jcc = "jp" then some ("0 /* fpu: unordered/NaN */", desc)
        else if jcc = "jnp" then some ("1 /* fpu: ordered */", desc)
        else none
    else
      match lhsOpt with
      | none => none
      | some lhs =>
        let rhs := rhsOpt.getD "None"
        let rhsTruthy : Bool := match rhsOpt with | some s => s != "" | none => false
        if flagSetter = "comiss" ∨ flagSetter = "comisd" ∨
           flagSetter = "ucomiss" ∨ flagSetter = "ucomisd" then
          let a := match flagOps with | x :: _ => sseOp x | [] => "0.0f"
          let b := match flagOps with | _ :: y :: _ => sseOp y | _ => "0.0f"
          if jcc = "ja" ∨ jcc = "jnbe" then some ("(" ++ a ++ " > " ++ b ++ ")", desc)
          else if jcc = "jae" ∨ jcc = "jnb" ∨ jcc = "jnc" then
            some ("(" ++ a ++ " >= " ++ b ++ ")", desc)
          else if jcc = "jb" ∨ jcc = "jnae" ∨ jcc = "jc" then
            some ("(" ++ a ++ " < " ++ b ++ ")", desc)
          else if jcc = "jbe" ∨ jcc = "jna" then some ("(" ++ a ++ " <= " ++ b ++ ")", desc)
          else if jcc = "je" ∨ jcc = "jz" then some ("(" ++ a ++ " == " ++ b ++ ")", desc)
          else if jcc = "jne" ∨ jcc = "jnz" then some ("(" ++ a ++ " != " ++ b ++ ")", desc)
          else if jcc = "jp" then some ("0 /* " ++ jcc ++ ": unordered/NaN */", desc)
          else if jcc = "jnp" then some ("1 /* " ++ jcc ++ ": ordered */", desc)
          else none
        else if flagSetter = "cmp" then
          match cmpMacro with
          | some m => some (m ++ "(" ++ lhs ++ ", " ++ rhs ++ ")", desc)
          | none =>
            if jcc = "js" then some ("((int32_t)(" ++ lhs ++ " - " ++ rhs ++ ") < 0)", desc)
            else if jcc = "jns" then
              some ("((int32_t)(" ++ lhs ++ " - " ++ rhs ++ ") >= 0)", desc)
            else if jcc = "jp" ∨ jcc = "jnp" then
              some ("1 /* " ++ jcc ++ " after cmp - parity */", desc)
            else none
        else if flagSetter = "test" then
          match testMacro with
          | some m => some (m ++ "(" ++ lhs ++ ", " ++ rhs ++ ")", desc)
          | none =>
            match cmpMacro with
            | some m => some (m ++ "(" ++ lhs ++ " & " ++ rhs ++ ", 0)", desc)
            | none =>
              if jcc = "js" then
                some ("((int32_t)(" ++ lhs ++ " & " ++ rhs ++ ") < 0)", desc)
              else if jcc = "jns" then
                some ("((int32_t)(" ++ lhs ++ " & " ++ rhs ++ ") >= 0)", desc)
              else if jcc = "jo" then some ("0", desc)
              else if jcc = "jno" then some ("1", desc)
              else if jcc = "jp" ∨ jcc = "jnp" then
                some ("1 /* " ++ jcc ++ " after test - parity */", desc)
              else none
        else if flagSetter = "sub" then
          if jcc = "je" ∨ jcc = "jz" then some ("(" ++ lhs ++ " == 0)", desc)
          else if jcc = "jne" ∨ jcc = "jnz" then some ("(" ++ lhs ++ " != 0)", desc)
          else if jcc = "js" then some ("((int32_t)" ++ lhs ++ " < 0)", desc)
          else if jcc = "jns" then some ("((int32_t)" ++ lhs ++ " >= 0)", desc)
          else if cmpMacro.isSome && rhsTruthy then
            some ((cmpMacro.getD "") ++ "((uint32_t)" ++ lhs ++ " + (uint32_t)" ++ rhs ++
                  ", (uint32_t)" ++ rhs ++ ")", desc)
          else if jcc = "jb" ∨ jcc = "jnae" then
            some ("((uint32_t)" ++ lhs ++ " + (uint32_t)" ++ rhs ++ " < (uint32_t)" ++ rhs ++ ")", desc)
          else if jcc = "jae" ∨ jcc = "jnb" then
            some ("((uint32_t)" ++ lhs ++ " + (uint32_t)" ++ rhs ++ " >= (uint32_t)" ++ rhs ++ ")", desc)
          else if jcc = "jl" ∨ jcc = "jnge" then some ("((int32_t)" ++ lhs ++ " < 0)", desc)
          else if jcc = "jge" ∨ jcc = "jnl" then some ("((int32_t)" ++ lhs ++ " >= 0)", desc)
          else if jcc = "jle" ∨ jcc = "jng" then some ("((int32_t)" ++ lhs ++ " <= 0)", desc)
          else if jcc = "jg" ∨ jcc = "jnle" then some ("((int32_t)" ++ lhs ++ " > 0)", desc)
          else none
        else if flagSetter = "add" then
          if jcc = "je" ∨ jcc = "jz" then some ("(" ++ lhs ++ " == 0)", desc)
          else if jcc = "jne" ∨ jcc = "jnz" then some ("(" ++ lhs ++ " != 0)", desc)
          else if jcc = "js" then some ("((int32_t)" ++ lhs ++ " < 0)", desc)
          else if jcc = "jns" then some ("((int32_t)" ++ lhs ++ " >= 0)", desc)
          else if jcc = "jb" ∨ jcc = "jnae" ∨ jcc = "jc" then
            some ("(" ++ lhs ++ " < (uint32_t)" ++ rhs ++ ")", desc)
          else if jcc = "jae" ∨ jcc = "jnb" ∨ jcc = "jnc" then
            some ("(" ++ lhs ++ " >= (uint32_t)" ++ rhs ++ ")", desc)
          else if jcc = "jl" ∨ jcc = "jnge" then some ("((int32_t)" ++ lhs ++ " < 0)", desc)
          else if jcc = "jge" ∨ jcc = "jnl" then some ("((int32_t)" ++ lhs ++ " >= 0)", desc)
          else if jcc = "jle" ∨ jcc = "jng" then some ("((int32_t)" ++ lhs ++ " <= 0)", desc)
          else if jcc = "jg" ∨ jcc = "jnle" then some ("((int32_t)" ++ lhs ++ " > 0)", desc)
          else none
        else if flagSetter = "adc" ∨ flagSetter = "sbb" then
          if jcc = "je" ∨ jcc = "jz" then some ("(" ++ lhs ++ " == 0)", desc)
          else if jcc = "jne" ∨ jcc = "jnz" then some ("(" ++ lhs ++ " != 0)", desc)
          else if jcc = "js" then some ("((int32_t)" ++ lhs ++ " < 0)", desc)
          else if jcc = "jns" then some ("((int32_t)" ++ lhs ++ " >= 0)", desc)
          else none
        else if flagSetter = "and" ∨ flagSetter = "or" ∨ flagSetter = "xor" then
          if jcc = "je" ∨ jcc = "jz" then some ("(" ++ lhs ++ " == 0)", desc)
          else if jcc = "jne" ∨ jcc = "jnz" then some ("(" ++ lhs ++ " != 0)", desc)
          else if jcc = "js" ∨ jcc = "jl" then some ("((int32_t)" ++ lhs ++ " < 0)", desc)
          else if jcc = "jns" ∨ jcc = "jge" then some ("((int32_t)" ++ lhs ++ " >= 0)", desc)
          else if jcc = "jle" then some ("((int32_t)" ++ lhs ++ " <= 0)", desc)
          else if jcc = "jg" then some ("((int32_t)" ++ lhs ++ " > 0)", desc)
          else if jcc = "jb" ∨ jcc = "jnae" ∨ jcc = "jbe" ∨ jcc = "jna" then
            some ("0", desc)
          else if jcc = "jae" ∨ jcc = "jnb" ∨ jcc = "ja" ∨ jcc = "jnbe" then
            some ("1", desc)
          else none
        else if flagSetter = "dec" ∨ flagSetter = "inc" then
          if jcc = "je" ∨ jcc = "jz" then some ("(" ++ lhs ++ " == 0)", desc)
          else if jcc = "jne" ∨ jcc = "jnz" then some ("(" ++ lhs ++ " != 0)", desc)
          else if jcc = "js" then some ("((int32_t)" ++ lhs ++ " < 0)", desc)
          else if jcc = "jns" then some ("((int32_t)" ++ lhs ++ " >= 0)", desc)
          else if jcc = "jl" then some ("((int32_t)" ++ lhs ++ " < 0)", desc)
          else if jcc = "jle" then some ("((int32_t)" ++ lhs ++ " <= 0)", desc)
          else if jcc = "jg" then some ("((int32_t)" ++ lhs ++ " > 0)", desc)
          else if jcc = "jge" then some ("((int32_t)" ++ lhs ++ " >= 0)", desc)
          else none
        else if flagSetter = "neg" then
          if jcc = "je" ∨ jcc = "jz" then some ("(" ++ lhs ++ " == 0)", desc)
          else if jcc = "jne" ∨ jcc = "jnz" then some ("(" ++ lhs ++ " != 0)", desc)
          else if jcc = "jb" ∨ jcc = "jnae" ∨ jcc = "jc" then
            some ("(" ++ lhs ++ " != 0)", desc)
          else if jcc = "jae" ∨ jcc = "jnb" ∨ jcc = "jnc" then
            some ("(" ++ lhs ++ " == 0)", desc)
          else if jcc = "js" then some ("((int32_t)" ++ lhs ++ " < 0)", desc)
          else if jcc = "jns" then some ("((int32_t)" ++ lhs ++ " >= 0)", desc)
          else if jcc = "jg" ∨ jcc = "jnle" then some ("((int32_t)" ++ lhs ++ " > 0)", desc)
          else if jcc = "jge" ∨ jcc = "jnl" then some ("((int32_t)" ++ lhs ++ " >= 0)", desc)
          else if jcc = "jl" ∨ jcc = "jnge" then some ("((int32_t)" ++ lhs ++ " < 0)", desc)
          else if jcc = "jle" ∨ jcc = "jng" then some ("((int32_t)" ++ lhs ++ " <= 0)", desc)
          else none
        else if flagSetter = "shl" ∨ flagSetter = "shr" ∨ flagSetter = "sar" then
          if jcc = "je" ∨ jcc = "jz" then some ("(" ++ lhs ++ " == 0)", desc)
          else if jcc = "jne" ∨ jcc = "jnz" then some ("(" ++ lhs ++ " != 0)", desc)
          else if jcc = "js" then some ("((int32_t)" ++ lhs ++ " < 0)", desc)
          else if jcc = "jns" then some ("((int32_t)" ++ lhs ++ " >= 0)", desc)
          else none
        else if flagSetter = "shld" ∨ flagSetter = "shrd" then
          if jcc = "je" ∨ jcc = "jz" then some ("(" ++ lhs ++ " == 0)", desc)
          else if jcc = "jne" ∨ jcc = "jnz" then some ("(" ++ lhs ++ " != 0)", desc)
          else if jcc = "js" then some ("((int32_t)" ++ lhs ++ " < 0)", desc)
          else if jcc = "jns" then some ("((int32_t)" ++ lhs ++ " >= 0)", desc)
          else none
        else if flagSetter = "rol" ∨ flagSetter = "ror" ∨ flagSetter = "rcl" ∨
                flagSetter = "rcr" then none
        else if flagSetter = "bsf" ∨ flagSetter = "bsr" then
          match rhsOpt with
          | none => none
          | some r =>
            if jcc = "je" ∨ jcc = "jz" then some ("(" ++ r ++ " == 0)", desc)
            else if jcc = "jne" ∨ jcc = "jnz" then some ("(" ++ r ++ " != 0)", desc)
            else none
        else if flagSetter = "bt" ∨ flagSetter = "bts" ∨ flagSetter = "btr" ∨
                flagSetter = "btc" then
          match rhsOpt with
          | none => none
          | some r =>
            if jcc = "jb" ∨ jcc = "jnae" ∨ jcc = "jc" then
              some ("((" ++ lhs ++ " >> (" ++ r ++ " & 31)) & 1)", desc)
            else if jcc = "jae" ∨ jcc = "jnb" ∨ jcc = "jnc" then
              some ("!((" ++ lhs ++ " >> (" ++ r ++ " & 31)) & 1)", desc)
            else none
        else if flagSetter = "cmpxchg" then
          if jcc = "je" ∨ jcc = "jz" then some ("(" ++ lhs ++ " == eax)", desc)
          else if jcc = "jne" ∨ jcc = "jnz" then some ("(" ++ lhs ++ " != eax)", desc)
          else none
        else if flagSetter = "xadd" then
          if jcc = "je" ∨ jcc = "jz" then some ("(" ++ lhs ++ " == 0)", desc)
          else if jcc = "jne" ∨ jcc = "jnz" then some ("(" ++ lhs ++ " != 0)", desc)
          else none
        else if B3.FuncId.strContains flagSetter "cmps" ∨
                B3.FuncId.strContains flagSetter "scas" then
          if jcc = "je" ∨ jcc = "jz" then
            some ("1 /* strings matched (repe cmpsb) */", desc)
          else if jcc = "jne" ∨ jcc = "jnz" then
            some ("0 /* strings differed (repe cmpsb) */", desc)
          else none
        else none

/-- ABI record fields the lifter reads (abi_functions.json), with the
dict.get defaults applied on lookup miss. -/
structure AbiInfo where
  callingConvention : String := "cdecl"
  estimatedParams : Nat := 0
  deriving Repr, DecidableEq

/-- Function-database record fields the lifter reads. -/
structure FuncInfo where
  name : Option String := none
  deriving Repr, DecidableEq

/-- Lifter (lifter.py): the databases handed to the constructor plus the
per-function bounds the translator sets before lifting. -/
structure LifterState where
  funcDb : List (Nat × FuncInfo) := []
  labelDb : List (Nat × String) := []
  abiDb : List (Nat × AbiInfo) := []
  funcStart : Nat := 0
  funcEnd : Nat := 0
  deriving Repr

/-- Lifter._call_target_name. -/
def callTargetName (st : LifterState) (addr : Nat) : String :=
  match B3.alookup st.labelDb addr with
  | some n => n
  | none =>
    match B3.alookup st.funcDb addr with
    | some info => info.name.getD ("sub_" ++ B3.hex8 addr)
    | none => "sub_" ++ B3.hex8 addr

/-- Lifter._build_call_args: a this-pointer cast for thiscall conventions
followed by one placeholder per estimated parameter. -/
def buildCallArgs (st : LifterState) (targetAddr : Nat) : String :=
  let abiInfo := (B3.alookup st.abiDb targetAddr).getD {}
  let cc := abiInfo.callingConvention
  let args :=
    (if cc = "thiscall" ∨ cc = "thiscall_cdecl" then ["(void*)(uintptr_t)ecx"] else []) ++
    (List.range abiInfo.estimatedParams).map fun i => "0 /* a" ++ toString (i + 1) ++ " */"
  String.intercalate ", " args

/-- Lifter._is_external_target. -/
def isExternalTarget (st : LifterState) (addr : Nat) : Bool :=
  !(decide (st.funcStart ≤ addr) && decide (addr < st.funcEnd))

/-- _emit_cond_goto (lifter.py): a conditional goto for an intra-function
target, a conditional tail call for a target outside the current function
bounds, and a commented empty block when no target resolved. -/
def emitCondGoto (condExpr jcc desc : String) (target : Option Nat)
    (lifter : Option LifterState) : String :=
  match target with
  | none => "if (" ++ condExpr ++ ") \x7b /* " ++ jcc ++ ": " ++ desc ++ " - indirect */ \x7d"
  | some t =>
    let asGoto := "if (" ++ condExpr ++ ") goto loc_" ++ B3.hex8 t ++ "; /* " ++
      jcc ++ ": " ++ desc ++ " */"
    match lifter with
    | some st =>
      if isExternalTarget st t then
        "if (" ++ condExpr ++ ") \x7b " ++ callTargetName st t ++ "(" ++
          buildCallArgs st t ++ "); return; \x7d" ++ " /* " ++ jcc ++ ": " ++ desc ++ " */"
      else asGoto
    | none => asGoto

/-- try_match_cmp_jcc (lifter.py): match cmp/test followed by a conditional
jump starting at index idx, emitting one statement and consuming two
instructions. -/
def tryMatchCmpJcc (insns : List RInsn) (idx : Nat) (lifter : Option LifterState) :
    Option (String × Nat) :=
  if idx + 1 ≥ insns.length then none
  else
    match insns.drop idx with
    | first :: second :: _ =>
      if ¬(first.mnemonic = "cmp" ∨ first.mnemonic = "test") ∨ ¬second.isCondJump then
        none
      else if first.operands.length < 2 then none
      else
        match makeCondition second.mnemonic first.mnemonic first.operands with
        | none => none
        | some (condExpr, desc) =>
          some (emitCondGoto condExpr second.mnemonic desc second.jumpTarget lifter, 2)
    | _ => none

/-- Lifter._lift_ret. -/
def liftRet (ops : List ROperand) : List String :=
  match ops with
  | op :: _ =>
    if op.type = "imm" then ["return; /* ret " ++ toString op.imm ++ " */"]
    else ["return;"]
  | [] => ["return;"]

/-- Lifter._lift_call: a resolved direct target becomes a named call with
ABI-derived arguments; otherwise the first operand feeds the RECOMP_ICALL
shim.  The Python truthiness test on call_target treats address zero like
an absent target. -/
def liftCall (st : LifterState) (insn : RInsn) (ops : List ROperand) : List String :=
  if (insn.callTarget.getD 0) ≠ 0 then
    let t := insn.callTarget.getD 0
    [callTargetName st t ++ "(" ++ buildCallArgs st t ++ "); /* call 0x" ++
     B3.hex8 t ++ " */"]
  else
    match ops with
    | op :: _ => ["RECOMP_ICALL(" ++ fmtOperandRead op ++ "); /* indirect call */"]
    | [] => ["/* call: no target */"]

end B3.Recomp

namespace B3.Scenario

/-!
Concrete inputs used by the counterexamples and witnesses below.  Each
scenario mirrors an input the corresponding pipeline stage can receive.
-/

open B3.Disasm B3.GlobalMap B3.FuncId B3.Recomp B3.Xbe

/-- Two data-read cross-references into the .data section five bytes apart
(0x003B2360 is divisible by 5). -/
def c2xrefs : List XRefRec :=
  [{ fromAddr := 0x11000, toAddr := 0x3B2360, typeStr := "data_read" },
   { fromAddr := 0x11005, toAddr := 0x3B2365, typeStr := "data_read" }]

/-- The globals database the mapper produces from those two references,
after size inference. -/
def c2db : List (Nat × GlobalEntry) :=
  inferSizesDb (buildGlobalsFromXrefs c2xrefs [] fun _ => none)

/-- One function record with both an RW and a CRT classification. -/
def c4fns : List FuncJson := [{ start := 0x1000, name := "sub_00001000" }]

/-- RW classification of that function. -/
def c4rw : List (Nat × RwInfo) := [(0x1000, { category := "rw_core" })]

/-- CRT classification of the same function. -/
def c4crt : List (Nat × CrtInfo) := [(0x1000, { name := "memcpy" })]

/-- The section list of the cmp/je scenario: one executable .text section
holding both functions. -/
def c5sections : List SectionInfo :=
  [{ name := ".text", virtualAddr := 0x11000, virtualSize := 0x1000,
     executable := true }]

/-- Image for the cmp/je scenario. -/
def c5image : BinaryImage := { sections := c5sections, kernelImports := [] }

/-- Engine instructions of the cmp/je scenario: cmp eax, 0x10 at 0x11000,
je 0x11020 at 0x11003, ret at 0x11005, and the target function at
0x11020. -/
def c5einsns : List EInsn :=
  [{ address := 0x11000, size := 3, mnemonic := "cmp" },
   { address := 0x11003, size := 2, mnemonic := "je", isCondJump := true,
     jumpTarget := some 0x11020 },
   { address := 0x11005, size := 1, mnemonic := "ret", isRet := true },
   { address := 0x11020, size := 1, mnemonic := "ret", isRet := true }]

/-- Lifter state while translating the containing function
[0x11000, 0x11006). -/
def c5lifter : LifterState :=
  { funcDb := [(0x11000, { name := some "sub_00011000" }),
               (0x11020, { name := some "sub_00011020" })],
    funcStart := 0x11000, funcEnd := 0x11006 }

/-- Recomp-side cmp eax, 0x10. -/
def c5cmp : RInsn :=
  { address := 0x11000, size := 3, mnemonic := "cmp",
    operands := [{ type := "reg", reg := "eax" }, { type := "imm", imm := 0x10 }] }

/-- Recomp-side je 0x11020. -/
def c5je : RInsn :=
  { address := 0x11003, size := 2, mnemonic := "je", jumpTarget := some 0x11020 }

/-- The statement the lifter actually emits for the cmp/je pair. -/
def c5emitted : String :=
  "if (CMP_EQ(eax, 0x10)) { sub_00011020(); return; } /* je: equal / zero */"

/-- The statement the specification demands for the cmp/je pair. -/
def c5claimed : String := "if (CMP_EQ(eax, 0x10)) goto loc_00011020; return;"

/-- Image whose kernel-import table holds the RtlZeroMemory thunk at
0x0036B7C0. -/
def c6image : BinaryImage :=
  { sections := [],
    kernelImports := [{ ordinal := 329, name := "RtlZeroMemory",
                        thunkAddr := 0x0036B7C0 }] }

/-- Engine-side call [0x0036B7C0]. -/
def c6einsn : EInsn :=
  { address := 0x11000, size := 6, mnemonic := "call", isCall := true,
    memoryRef := some 0x0036B7C0 }

/-- Recomp-side call [0x0036B7C0]: capstone resolves no immediate target,
only the flat memory displacement. -/
def c6insn : RInsn :=
  { address := 0x11000, size := 6, mnemonic := "call",
    operands := [{ type := "mem", memDisp := 0x0036B7C0, memSize := 4 }],
    memoryRefs := [0x0036B7C0] }

/-- Call graph for the 2-of-3 forward-propagation scenario: 0x400 is called
by 0x100, 0x200 (both rw_core) and 0x300 (unlabeled). -/
def c7fns : List FuncJson :=
  [{ start := 0x100, callsTo := [0x400] }, { start := 0x200, callsTo := [0x400] },
   { start := 0x300, callsTo := [0x400] }, { start := 0x400 }]

/-- RW labels of the 2-of-3 scenario. -/
def c7rw : List (Nat × RwInfo) :=
  [(0x100, { category := "rw_core" }), (0x200, { category := "rw_core" })]

/-- Sorted address list of the 2-of-3 scenario. -/
def c7addrs : List Nat := B3.GlobalMap.sortNats ((c7fns.map (·.start)).dedup)

/-- Call graph for the 3-of-4 witness scenario: 0x500 is called by 0x100,
0x200, 0x300 (all rw_core) and 0x400 (unlabeled). -/
def c7fnsB : List FuncJson :=
  [{ start := 0x100, callsTo := [0x500] }, { start := 0x200, callsTo := [0x500] },
   { start := 0x300, callsTo := [0x500] }, { start := 0x400, callsTo := [0x500] },
   { start := 0x500 }]

/-- RW labels of the 3-of-4 scenario. -/
def c7rwB : List (Nat × RwInfo) :=
  [(0x100, { category := "rw_core" }), (0x200, { category := "rw_core" }),
   (0x300, { category := "rw_core" })]

/-- Initial pass state of the 3-of-4 scenario. -/
def c7stB : PassState := { labels := initLabels c7rwB [], propagated := [] }

/-- Byte at each offset of the crafted XBE buffer: the XBEH magic, one
section (count at 0x11C), and a section table placed at file offset 0x10,
inside the 380-byte header. -/
def c9byte (i : Nat) : Nat :=
  if i < 4 then [0x58, 0x42, 0x45, 0x48].getD i 0
  else if i = 0x11C then 1
  else if i = 0x120 then 0x10
  else 0

/-- The crafted 1024-byte XBE buffer whose section table overlaps the
header. -/
def c9data : List Nat := (List.range 1024).map c9byte

/-- Two non-branch instructions referencing the same .data address. -/
def c10insns : List EInsn :=
  [{ address := 0x11000, size := 6, mnemonic := "mov", memoryRef := some 0x3B2360 },
   { address := 0x11006, size := 6, mnemonic := "mov", memoryRef := some 0x3B2360 }]

/-- The mapper input built from those instructions through the
cross-reference tracker. -/
def c10xr : List XRefRec := (buildXrefs c10insns c5image).map xrefToRec

end B3.Scenario

namespace B3.GlobalMap

/-- Window test of _build_globals_from_xrefs: the target lies in the .data
or .rdata range (the branch order only affects the recorded section name,
not whether the reference is counted). -/
def inGlobalsWindow (t : Nat) : Bool :=
  decide (DATA_VA_START ≤ t ∧ t < DATA_VA_END) ||
  decide (RDATA_VA_START ≤ t ∧ t < RDATA_VA_END)

/-- Number of data_read records targeting k inside the globals window: the
read count the mapper accumulates for the global at k. -/
def readRefCount (xrefs : List XRefRec) (k : Nat) : Nat :=
  (xrefs.filter fun r =>
    r.typeStr == "data_read" && inGlobalsWindow r.toAddr && r.toAddr == k).length

/-- Number of data_write records targeting k inside the globals window. -/
def writeRefCount (xrefs : List XRefRec) (k : Nat) : Nat :=
  (xrefs.filter fun r =>
    r.typeStr == "data_write" && inGlobalsWindow r.toAddr && r.toAddr == k).length

end B3.GlobalMap

namespace B3

open B3.Disasm B3.Recomp B3.Xbe B3.FuncId B3.Scenario

/-! ### Helper lemmas -/

theorem getInstruction_address {insns : List EInsn} {addr : Nat} {i : EInsn}
    (h : Disasm.getInstruction insns addr = some i) : i.address = addr := by
  have := List.find?_some h
  simpa using this.symm

theorem getInstruction_mem {insns : List EInsn} {addr : Nat} {i : EInsn}
    (h : Disasm.getInstruction insns addr = some i) : i ∈ insns :=
  List.mem_of_find?_eq_some h

theorem getSectionAtVa_spec {image : BinaryImage} {va : Nat} {sec : SectionInfo}
    (h : Disasm.getSectionAtVa image va = some sec) :
    sec ∈ image.sections ∧ sec.virtualAddr ≤ va ∧
      va < sec.virtualAddr + sec.virtualSize := by
  refine ⟨List.mem_of_find?_eq_some h, ?_, ?_⟩ <;>
  · have := List.find?_some h
    simp only [Bool.and_eq_true, decide_eq_true_eq] at this
    omega

/-! ### C3 -/

/-- Claim C3: the specification requires the platform-library-caller rule to
tag unlabeled functions calling a named platform library section with the
matching game area at confidence 0.70, and requires that no error throws
across the stage boundary.  In the code, clustering._classify_xdk_callers
reads config.XDK_SECTIONS, but tools/func_id/config.py defines no such
attribute, so the propagation stage raises AttributeError on every input
before tagging anything. -/
theorem c3_xdk_stage_always_raises (functions : List FuncJson)
    (rwResults : List (Nat × RwInfo)) (crtResults : List (Nat × CrtInfo))
    (immRefs : List (Nat × List Nat)) (strings : List (Nat × String)) :
    FuncId.propagateLabels functions rwResults crtResults immRefs strings =
      .error (.attributeError "XDK_SECTIONS") := rfl

/-! ### C8 -/

/-- Claim C8: the inferred calling convention is exactly thiscall for
this-pointer use with callee-cleans, thiscall_cdecl for this-pointer use
without callee-cleans, stdcall for callee-cleans alone, and cdecl
otherwise, where this-pointer use is analyzer._check_ecx_as_this on the
prologue bytes and callee-cleans is the ret-imm16 scan over the epilogue
bytes. -/
theorem c8_calling_convention_mapping (prologue epilogue : List Nat) :
    (Abi.detectCallingConvention prologue epilogue = "thiscall" ↔
      Abi.checkEcxAsThis prologue = true ∧ Abi.hasRetN epilogue = true) ∧
    (Abi.detectCallingConvention prologue epilogue = "thiscall_cdecl" ↔
      Abi.checkEcxAsThis prologue = true ∧ Abi.hasRetN epilogue = false) ∧
    (Abi.detectCallingConvention prologue epilogue = "stdcall" ↔
      Abi.checkEcxAsThis prologue = false ∧ Abi.hasRetN epilogue = true) ∧
    (Abi.detectCallingConvention prologue epilogue = "cdecl" ↔
      Abi.checkEcxAsThis prologue = false ∧ Abi.hasRetN epilogue = false) := by
  cases hE : Abi.checkEcxAsThis prologue <;> cases hR : Abi.hasRetN epilogue <;>
    simp [Abi.detectCallingConvention, hE, hR]

/-! ### C5 -/

/-- Counterexample to claim C5: for cmp eax, 0x10; je 0x11020; ret at VA
0x11000 with a function at 0x11020, the lifter does not emit
if (CMP_EQ(eax, 0x10)) goto loc_00011020; — the target 0x11020 lies
outside the containing function [0x11000, 0x11006), so _emit_cond_goto
takes the external branch and emits a conditional tail call instead. -/
theorem c5_counterexample :
    Recomp.tryMatchCmpJcc [c5cmp, c5je] 0 (some c5lifter) = some (c5emitted, 2) ∧
    c5emitted ≠ c5claimed := by
  decide

/-- Claim C5 as amended: the detector ends the containing function at
0x11006, the cmp/je pair is matched into the single statement
if (CMP_EQ(eax, 0x10)) { sub_00011020(); return; } /* je: equal / zero */
consuming both instructions (so no intermediate comparison statement is
emitted), the ret lifts to return; and the cross-reference database records
0x11020 as a cond_jump cross-reference from the je at 0x11003. -/
theorem c5_amended :
    Disasm.findFunctionEnd c5einsns 0x11000 (some 0x11020) (some 0x12000) = 0x11006 ∧
    Recomp.tryMatchCmpJcc [c5cmp, c5je] 0 (some c5lifter) = some (c5emitted, 2) ∧
    Recomp.liftRet [] = ["return;"] ∧
    ({ fromAddr := 0x11003, toAddr := 0x11020, xrefType := .condJump } : XRef) ∈
      Disasm.buildXrefs c5einsns c5image := by
  decide

/-! ### C6 -/

/-- Counterexample to claim C6: Lifter._lift_call resolves a direct target
only from insn.call_target, which the recomp disassembler fills only for
immediate operands; for call [0x0036B7C0] it emits the RECOMP_ICALL shim on
the memory read, not xbox_RtlZeroMemory(); /* call 0x0036B7C0 */. -/
theorem c6_counterexample :
    Recomp.liftCall {} c6insn c6insn.operands =
      ["RECOMP_ICALL(MEM32(0x36B7C0)); /* indirect call */"] ∧
    Recomp.liftCall {} c6insn c6insn.operands ≠
      ["xbox_RtlZeroMemory(); /* call 0x0036B7C0 */"] := by
  decide

/-- Claim C6 as amended: the cross-reference tracker does record a
kernel_call cross-reference carrying kernel_name RtlZeroMemory for
call [0x0036B7C0], and the lifter translates the instruction to
RECOMP_ICALL(MEM32(0x36B7C0)); /* indirect call */. -/
theorem c6_amended :
    Disasm.buildXrefs [c6einsn] c6image =
      [{ fromAddr := 0x11000, toAddr := 0x0036B7C0, xrefType := .kernelCall,
         kernelName := some "RtlZeroMemory" }] ∧
    Recomp.liftCall {} c6insn c6insn.operands =
      ["RECOMP_ICALL(MEM32(0x36B7C0)); /* indirect call */"] := by
  decide

/-! ### C2 -/

/-- Counterexample to claim C2: with globals at 0x003B2360 and 0x003B2365
(gap 5, address divisible by 5), _infer_sizes keeps the gap itself as the
size, so the produced inferred_size is 5, which is not in {1, 2, 4, 8}. -/
theorem c2_counterexample :
    (B3.alookup c2db 0x3B2360).map (·.inferredSize) = some 5 ∧
    ¬ (5 = 1 ∨ 5 = 2 ∨ 5 = 4 ∨ 5 = 8) ∧ 0x3B2360 % 5 = 0 := by
  decide

/-! ### C9 -/

/-- Counterexample to claim C9: a buffer with a valid magic whose section
table sits at file offset 0x10, inside the 380-byte header, parses
successfully — parse performs no section-table-overlaps-header check and
raises no Corrupt error. -/
theorem c9_counterexample :
    (Xbe.parse c9data).isOk = true ∧
    ((Xbe.parse c9data).toOption.map fun f =>
      (f.header.sectionHeadersAddr, f.header.baseAddress, f.sections.length)) =
      some (0x10, 0, 1) := by
  decide

/-- Claim C9 as amended: the only typed failure parse itself raises is the
ValueError on a wrong magic; out-of-range offsets surface as untyped
struct.error from field reads, and a section table overlapping the header
is accepted without error. -/
theorem c9_amended (data : List Nat)
    (h : Xbe.readBytes data 0 4 ≠ [0x58, 0x42, 0x45, 0x48]) :
    Xbe.parse data = .error (.valueError "Invalid XBE magic") := by
  simp [Xbe.parse, h]

/-- Witness for c9_amended at the empty buffer. -/
theorem c9_amended_witness :
    Xbe.readBytes [] 0 4 ≠ [0x58, 0x42, 0x45, 0x48] ∧
    Xbe.parse [] = .error (.valueError "Invalid XBE magic") :=
  ⟨by decide, c9_amended [] (by decide)⟩

end B3

namespace B3

open B3.Disasm B3.Recomp B3.Xbe B3.FuncId B3.Scenario

/-! ### C2 -/

theorem inferSize_spec (gap addr : Nat) :
    addr % GlobalMap.inferSize gap addr = 0 ∧
      (GlobalMap.inferSize gap addr = 1 ∨ GlobalMap.inferSize gap addr = 2 ∨
       GlobalMap.inferSize gap addr = 4 ∨ GlobalMap.inferSize gap addr = 5 ∨
       GlobalMap.inferSize gap addr = 6 ∨ GlobalMap.inferSize gap addr = 7 ∨
       GlobalMap.inferSize gap addr = 8) := by
  simp only [GlobalMap.inferSize]
  split_ifs <;> omega

theorem mem_insortNat {x y : Nat} {l : List Nat} :
    x ∈ GlobalMap.insortNat y l ↔ x = y ∨ x ∈ l := by
  induction l with
  | nil => simp [GlobalMap.insortNat]
  | cons a rest ih =>
    simp only [GlobalMap.insortNat]
    split_ifs with h
    · simp
    · simp [ih]
      tauto

theorem mem_sortNats {x : Nat} {l : List Nat} :
    x ∈ GlobalMap.sortNats l ↔ x ∈ l := by
  induction l with
  | nil => simp [GlobalMap.sortNats]
  | cons a rest ih =>
    simp only [GlobalMap.sortNats, List.foldr_cons] at *
    rw [mem_insortNat, ih]
    simp

theorem alookup_inferSizes_isSome {l : List Nat} {k : Nat} (h : k ∈ l) :
    (B3.alookup (GlobalMap.inferSizes l) k).isSome := by
  induction l with
  | nil => simp at h
  | cons a rest ih =>
    simp only [GlobalMap.inferSizes, B3.alookup]
    split_ifs with hk
    · rfl
    · rcases List.mem_cons.mp h with rfl | hr
      · exact absurd rfl hk
      · exact ih hr

theorem alookup_inferSizes_shape {l : List Nat} {k s : Nat}
    (h : B3.alookup (GlobalMap.inferSizes l) k = some s) :
    ∃ gap, s = GlobalMap.inferSize gap k := by
  induction l with
  | nil => simp [GlobalMap.inferSizes, B3.alookup] at h
  | cons a rest ih =>
    simp only [GlobalMap.inferSizes, B3.alookup] at h
    split_ifs at h with hk
    · subst hk
      exact ⟨_, (Option.some.injEq _ _ ▸ h).symm⟩
    · exact ih h

end B3

namespace B3

open B3.Disasm B3.Recomp B3.Xbe B3.FuncId B3.Scenario

theorem entryUpdate_address (x : GlobalMap.XRefRec) (fa : Option Nat) (fc : String)
    (e : GlobalMap.GlobalEntry) :
    (GlobalMap.entryUpdate x fa fc e).address = e.address := by
  unfold GlobalMap.entryUpdate
  split_ifs <;> (try split) <;> (try split_ifs) <;> rfl

theorem entryUpdate_read (x : GlobalMap.XRefRec) (fa : Option Nat) (fc : String)
    (e : GlobalMap.GlobalEntry) :
    (GlobalMap.entryUpdate x fa fc e).readCount =
      (if x.typeStr = "data_read" then e.readCount + 1 else e.readCount) := by
  unfold GlobalMap.entryUpdate
  split_ifs <;> (try split) <;> (try split_ifs) <;> rfl

theorem entryUpdate_write (x : GlobalMap.XRefRec) (fa : Option Nat) (fc : String)
    (e : GlobalMap.GlobalEntry) :
    (GlobalMap.entryUpdate x fa fc e).writeCount =
      (if x.typeStr = "data_read" then e.writeCount else e.writeCount + 1) := by
  unfold GlobalMap.entryUpdate
  split_ifs <;> (try split) <;> (try split_ifs) <;> rfl

theorem buildGlobalsStep_pair {P : Nat × GlobalMap.GlobalEntry → Prop}
    (funcStarts : List Nat) (funcCategories : Nat → Option String)
    (x : GlobalMap.XRefRec) (db : List (Nat × GlobalMap.GlobalEntry))
    (hdb : ∀ p ∈ db, P p)
    (hinit : ∀ sec, GlobalMap.sectionChoiceFor x.toAddr = some sec →
      P (x.toAddr, GlobalMap.entryInit x.toAddr sec))
    (hupd : ∀ k e, P (k, e) → k = x.toAddr →
      ∀ fa fc, P (k, GlobalMap.entryUpdate x fa fc e)) :
    ∀ q ∈ GlobalMap.buildGlobalsStep funcStarts funcCategories db x, P q := by
  intro q hq
  simp only [GlobalMap.buildGlobalsStep] at hq
  split_ifs at hq with ht hl
  · exact hdb q hq
  · rcases hsec : GlobalMap.sectionChoiceFor x.toAddr with _ | sec <;> rw [hsec] at hq
    · exact hdb q hq
    · simp only [List.mem_map] at hq
      obtain ⟨p0, hp0, hqeq⟩ := hq
      have hP0 : P p0 := hdb p0 hp0
      by_cases hk : p0.1 = x.toAddr
      · rw [if_pos hk] at hqeq
        subst hqeq
        exact hupd p0.1 p0.2 hP0 hk _ _
      · rw [if_neg hk] at hqeq
        subst hqeq
        exact hP0
  · rcases hsec : GlobalMap.sectionChoiceFor x.toAddr with _ | sec <;> rw [hsec] at hq
    · exact hdb q hq
    · simp only [List.mem_map] at hq
      obtain ⟨p0, hp0, hqeq⟩ := hq
      have hP0 : P p0 := by
        rcases List.mem_append.mp hp0 with hin | hin
        · exact hdb p0 hin
        · simp only [List.mem_singleton] at hin
          subst hin
          exact hinit sec hsec
      by_cases hk : p0.1 = x.toAddr
      · rw [if_pos hk] at hqeq
        subst hqeq
        exact hupd p0.1 p0.2 hP0 hk _ _
      · rw [if_neg hk] at hqeq
        subst hqeq
        exact hP0

theorem buildGlobals_pair_invariant {P : Nat × GlobalMap.GlobalEntry → Prop}
    (funcStarts : List Nat) (funcCategories : Nat → Option String)
    (hinit : ∀ x sec, GlobalMap.sectionChoiceFor x = some sec →
      P (x, GlobalMap.entryInit x sec))
    (hupd : ∀ x k e, P (k, e) → k = GlobalMap.XRefRec.toAddr x →
      ∀ fa fc, P (k, GlobalMap.entryUpdate x fa fc e)) :
    ∀ (xs : List GlobalMap.XRefRec) (db : List (Nat × GlobalMap.GlobalEntry)),
      (∀ p ∈ db, P p) →
      ∀ p ∈ xs.foldl (GlobalMap.buildGlobalsStep funcStarts funcCategories) db, P p := by
  intro xs
  induction xs with
  | nil => intro db hdb p hp; exact hdb p hp
  | cons x rest ih =>
    intro db hdb p hp
    exact ih _ (buildGlobalsStep_pair funcStarts funcCategories x db hdb
      (fun sec h => hinit x.toAddr sec h) (hupd x)) p hp

theorem buildGlobals_address (funcStarts : List Nat)
    (funcCategories : Nat → Option String) (xs : List GlobalMap.XRefRec) :
    ∀ p ∈ GlobalMap.buildGlobalsFromXrefs xs funcStarts funcCategories,
      p.2.address = p.1 := by
  have := buildGlobals_pair_invariant (P := fun p => p.2.address = p.1)
    funcStarts funcCategories
    (fun x sec _ => rfl)
    (fun x k e hP hk fa fc => by
      dsimp only at hP ⊢
      rw [entryUpdate_address]
      exact hP)
    xs [] (by intro p hp; simp at hp)
  exact this

end B3

namespace B3

open B3.Disasm B3.Recomp B3.Xbe B3.FuncId B3.Scenario

/-- Claim C2 as amended: every produced inferred_size divides its address,
and lies in {1, 2, 4, 8} extended by the gap values 5, 6 and 7 (kept
verbatim by _infer_sizes when the address happens to be divisible by the
gap, instead of being rounded down to a power of two). -/
theorem c2_amended (xrefs : List GlobalMap.XRefRec) (funcStarts : List Nat)
    (funcCategories : Nat → Option String) (k : Nat) (e : GlobalMap.GlobalEntry)
    (hmem : (k, e) ∈ GlobalMap.inferSizesDb
      (GlobalMap.buildGlobalsFromXrefs xrefs funcStarts funcCategories)) :
    e.address % e.inferredSize = 0 ∧
      e.inferredSize ∈ ([1, 2, 4, 5, 6, 7, 8] : List Nat) := by
  unfold GlobalMap.inferSizesDb at hmem
  simp only [List.mem_map] at hmem
  obtain ⟨⟨k0, e0⟩, h0, heq⟩ := hmem
  have hk : k0 = k := congrArg Prod.fst heq
  subst hk
  have haddr : e0.address = k0 :=
    buildGlobals_address funcStarts funcCategories xrefs (k0, e0) h0
  have hkeys : k0 ∈ (GlobalMap.buildGlobalsFromXrefs xrefs funcStarts
      funcCategories).map Prod.fst :=
    List.mem_map.mpr ⟨(k0, e0), h0, rfl⟩
  have hsorted : k0 ∈ GlobalMap.sortNats ((GlobalMap.buildGlobalsFromXrefs xrefs
      funcStarts funcCategories).map Prod.fst) := mem_sortNats.mpr hkeys
  obtain ⟨s, hs⟩ := Option.isSome_iff_exists.mp (alookup_inferSizes_isSome hsorted)
  obtain ⟨gap, hgap⟩ := alookup_inferSizes_shape hs
  have he : e = { e0 with inferredSize := s } := by
    have := congrArg Prod.snd heq
    simp only at this
    rw [hs] at this
    simpa using this.symm
  subst he
  have hspec := inferSize_spec gap k0
  simp only [haddr, hgap]
  constructor
  · exact hspec.1
  · simpa using hspec.2

/-- Witness for c2_amended at the two-reference scenario: the size 5 entry
at 0x003B2360 indeed divides its address and lies in the extended set. -/
theorem c2_amended_witness :
    ((0x3B2360, (⟨0x3B2360, ".data", 1, 0, [], [], 5, "unknown"⟩ :
        GlobalMap.GlobalEntry)) ∈
      GlobalMap.inferSizesDb
        (GlobalMap.buildGlobalsFromXrefs c2xrefs [] fun _ => none)) ∧
    ((⟨0x3B2360, ".data", 1, 0, [], [], 5, "unknown"⟩ :
        GlobalMap.GlobalEntry).address %
      (⟨0x3B2360, ".data", 1, 0, [], [], 5, "unknown"⟩ :
        GlobalMap.GlobalEntry).inferredSize = 0 ∧
     (⟨0x3B2360, ".data", 1, 0, [], [], 5, "unknown"⟩ :
        GlobalMap.GlobalEntry).inferredSize ∈ ([1, 2, 4, 5, 6, 7, 8] : List Nat)) :=
  ⟨by decide, c2_amended c2xrefs [] (fun _ => none) 0x3B2360 _ (by decide)⟩

/-! ### C4 -/

theorem alookup_removeCrtRwOverlaps {crt : List (Nat × CrtInfo)}
    {rw : List (Nat × RwInfo)} {a : Nat} (h : (B3.alookup rw a).isSome) :
    B3.alookup (FuncId.removeCrtRwOverlaps crt rw) a = none := by
  induction crt with
  | nil => rfl
  | cons p rest ih =>
    unfold FuncId.removeCrtRwOverlaps at *
    rw [List.filter_cons]
    split_ifs with hp
    · simp only [B3.alookup]
      split_ifs with ha
      · subst ha
        rw [Option.isNone_iff_eq_none] at hp
        rw [hp] at h
        simp at h
      · exact ih
    · exact ih

end B3

namespace B3

open B3.Disasm B3.Recomp B3.Xbe B3.FuncId B3.Scenario

theorem enrichedEntryFor_start (f : FuncJson) (crt : List (Nat × CrtInfo))
    (rw : List (Nat × RwInfo)) (prop : List (Nat × PropInfo))
    (stub : List (Nat × StubInfo)) :
    (FuncId.enrichedEntryFor f crt rw prop stub).start = f.start := by
  unfold FuncId.enrichedEntryFor
  split <;> (try split) <;> (try split) <;> (try split) <;> rfl

/-- Counterexample to claim C4: a function carrying both a runtime-signature
(CRT) classification and a library (RW) classification is retained as the
library classification — identify.run deletes overlapping CRT matches
before the merge, so the merged database shows the rw_ category and not
crt. -/
theorem c4_counterexample :
    (B3.alookup c4crt 0x1000).isSome = true ∧
    (B3.alookup c4rw 0x1000).isSome = true ∧
    (FuncId.buildEnrichedDb c4fns (FuncId.removeCrtRwOverlaps c4crt c4rw)
        c4rw [] []).map (·.category) = ["rw_core"] ∧
    "rw_core" ≠ "crt" := by
  decide

/-- Claim C4 as amended: the overwriting policy for a doubly classified
function is library-over-runtime-signature: any CRT match at an address
that also has an RW classification is removed in identify.run, so the
merged record carries the RW category. -/
theorem c4_amended (functions : List FuncJson) (crt : List (Nat × CrtInfo))
    (rw : List (Nat × RwInfo)) (prop : List (Nat × PropInfo))
    (stub : List (Nat × StubInfo)) (e : FuncId.EnrichedEntry)
    (he : e ∈ FuncId.buildEnrichedDb functions (FuncId.removeCrtRwOverlaps crt rw)
      rw prop stub)
    (ri : RwInfo) (hri : B3.alookup rw e.start = some ri) :
    e.category = ri.category := by
  obtain ⟨f, hf, hfe⟩ := List.mem_map.mp he
  subst hfe
  rw [enrichedEntryFor_start] at hri
  have hnone : B3.alookup (FuncId.removeCrtRwOverlaps crt rw) f.start = none :=
    alookup_removeCrtRwOverlaps (by simp [hri])
  unfold FuncId.enrichedEntryFor
  rw [hnone, hri]

/-- Witness for c4_amended at the doubly classified scenario function. -/
theorem c4_amended_witness :
    (FuncId.enrichedEntryFor { start := 0x1000, name := "sub_00001000" }
      (FuncId.removeCrtRwOverlaps c4crt c4rw) c4rw [] []).category = "rw_core" :=
  c4_amended c4fns c4crt c4rw [] [] _
    (List.mem_map.mpr ⟨{ start := 0x1000, name := "sub_00001000" },
      by simp [Scenario.c4fns], rfl⟩)
    { category := "rw_core" } (by rw [enrichedEntryFor_start]; rfl)

end B3

namespace B3

open B3.Disasm B3.Recomp B3.Xbe B3.FuncId B3.Scenario

/-! ### C10 -/

theorem alookup_append_single {α : Type} (l : List (Nat × α)) (t k : Nat) (v : α) :
    B3.alookup (l ++ [(t, v)]) k =
      match B3.alookup l k with
      | some w => some w
      | none => if k = t then some v else none := by
  induction l with
  | nil => rfl
  | cons p rest ih =>
    by_cases hk : k = p.1
    · simp only [List.cons_append, B3.alookup, if_pos hk]
    · simp only [List.cons_append, B3.alookup, if_neg hk]
      exact ih

theorem alookup_none_not_mem {α : Type} {l : List (Nat × α)} {k : Nat}
    (h : B3.alookup l k = none) : ∀ v, (k, v) ∉ l := by
  induction l with
  | nil => simp
  | cons p rest ih =>
    intro v hv
    simp only [B3.alookup] at h
    split_ifs at h with hk
    rcases List.mem_cons.mp hv with heq | hmem
    · exact hk (congrArg Prod.fst heq)
    · exact ih h v hmem

theorem alookup_map_upd_none {α : Type} {l : List (Nat × α)} {t k : Nat}
    {f : α → α}
    (h : B3.alookup (l.map fun p => if p.1 = t then (p.1, f p.2) else p) k = none) :
    B3.alookup l k = none := by
  induction l with
  | nil => rfl
  | cons p rest ih =>
    simp only [List.map_cons] at h
    by_cases hp : p.1 = t
    · rw [if_pos hp] at h
      simp only [B3.alookup] at h ⊢
      split_ifs at h ⊢ with hk
      exact ih h
    · rw [if_neg hp] at h
      simp only [B3.alookup] at h ⊢
      split_ifs at h ⊢ with hk
      exact ih h

theorem readRefCount_append (p : List GlobalMap.XRefRec) (x : GlobalMap.XRefRec)
    (k : Nat) :
    GlobalMap.readRefCount (p ++ [x]) k =
      GlobalMap.readRefCount p k +
        (if x.typeStr == "data_read" && GlobalMap.inGlobalsWindow x.toAddr &&
            x.toAddr == k then 1 else 0) := by
  cases hx : x.typeStr == "data_read" && GlobalMap.inGlobalsWindow x.toAddr &&
      x.toAddr == k <;>
    simp [GlobalMap.readRefCount, List.filter_append, List.filter, hx]

theorem writeRefCount_append (p : List GlobalMap.XRefRec) (x : GlobalMap.XRefRec)
    (k : Nat) :
    GlobalMap.writeRefCount (p ++ [x]) k =
      GlobalMap.writeRefCount p k +
        (if x.typeStr == "data_write" && GlobalMap.inGlobalsWindow x.toAddr &&
            x.toAddr == k then 1 else 0) := by
  cases hx : x.typeStr == "data_write" && GlobalMap.inGlobalsWindow x.toAddr &&
      x.toAddr == k <;>
    simp [GlobalMap.writeRefCount, List.filter_append, List.filter, hx]

theorem sectionChoiceFor_none {t : Nat} (h : GlobalMap.sectionChoiceFor t = none) :
    GlobalMap.inGlobalsWindow t = false := by
  unfold GlobalMap.sectionChoiceFor at h
  unfold GlobalMap.inGlobalsWindow
  split_ifs at h <;> simp_all

theorem sectionChoiceFor_some {t : Nat} {sec : String}
    (h : GlobalMap.sectionChoiceFor t = some sec) :
    GlobalMap.inGlobalsWindow t = true := by
  unfold GlobalMap.sectionChoiceFor at h
  unfold GlobalMap.inGlobalsWindow
  split_ifs at h <;> simp_all

end B3

namespace B3

open B3.Disasm B3.Recomp B3.Xbe B3.FuncId B3.Scenario

/-- Count invariant of the database as carried through one
_build_globals_from_xrefs step: every entry holds exactly the read/write
totals of the records processed so far, and absent keys have no processed
records. -/
def CountInv (processed : List GlobalMap.XRefRec)
    (db : List (Nat × GlobalMap.GlobalEntry)) : Prop :=
  (∀ p ∈ db, p.2.readCount = GlobalMap.readRefCount processed p.1 ∧
             p.2.writeCount = GlobalMap.writeRefCount processed p.1) ∧
  (∀ k, B3.alookup db k = none →
    GlobalMap.readRefCount processed k = 0 ∧
    GlobalMap.writeRefCount processed k = 0)

theorem buildGlobalsStep_counts (funcStarts : List Nat)
    (funcCategories : Nat → Option String) (x : GlobalMap.XRefRec)
    (processed : List GlobalMap.XRefRec) (db : List (Nat × GlobalMap.GlobalEntry))
    (hinv : CountInv processed db) :
    CountInv (processed ++ [x]) (GlobalMap.buildGlobalsStep funcStarts
      funcCategories db x) := by
  obtain ⟨h1, h2⟩ := hinv
  constructor
  · intro p hp
    simp only [GlobalMap.buildGlobalsStep] at hp
    split_ifs at hp with ht hl
    · obtain ⟨ht1, ht2⟩ := ht
      have hold := h1 p hp
      simp [readRefCount_append, writeRefCount_append, beq_iff_eq, ht1, ht2,
        hold.1, hold.2]
    · rcases hsec : GlobalMap.sectionChoiceFor x.toAddr with _ | sec <;>
        rw [hsec] at hp
      · have hw := sectionChoiceFor_none hsec
        have hold := h1 p hp
        simp [readRefCount_append, writeRefCount_append, hw, hold.1, hold.2]
      · have hw := sectionChoiceFor_some hsec
        simp only [List.mem_map] at hp
        obtain ⟨p0, hp0, hqeq⟩ := hp
        have hold := h1 p0 hp0
        by_cases hk : p0.1 = x.toAddr
        · rw [if_pos hk] at hqeq
          subst hqeq
          by_cases hr : x.typeStr = "data_read"
          · have hnw : x.typeStr ≠ "data_write" := by rw [hr]; decide
            simp [readRefCount_append, writeRefCount_append, beq_iff_eq, hw,
              entryUpdate_read, entryUpdate_write, hr, hnw, hk, hold.1, hold.2]
          · have hww : x.typeStr = "data_write" := by tauto
            simp [readRefCount_append, writeRefCount_append, beq_iff_eq, hw,
              entryUpdate_read, entryUpdate_write, hr, hww, hk, hold.1, hold.2]
        · rw [if_neg hk] at hqeq
          subst hqeq
          simp [readRefCount_append, writeRefCount_append, beq_iff_eq, hk,
            hold.1, hold.2]
          exact ⟨fun _ _ h => hk h.symm, fun _ _ h => hk h.symm⟩
    · rcases hsec : GlobalMap.sectionChoiceFor x.toAddr with _ | sec <;>
        rw [hsec] at hp
      · have hw := sectionChoiceFor_none hsec
        have hold := h1 p hp
        simp [readRefCount_append, writeRefCount_append, hw, hold.1, hold.2]
      · have hw := sectionChoiceFor_some hsec
        simp only [List.mem_map] at hp
        obtain ⟨p0, hp0, hqeq⟩ := hp
        have hl0 : B3.alookup db x.toAddr = none := by
          simpa [Option.not_isSome_iff_eq_none] using hl
        have h0 := h2 x.toAddr hl0
        have hP0 : p0.2.readCount = GlobalMap.readRefCount processed p0.1 ∧
            p0.2.writeCount = GlobalMap.writeRefCount processed p0.1 := by
          rcases List.mem_append.mp hp0 with hin | hin
          · exact h1 p0 hin
          · simp only [List.mem_singleton] at hin
            subst hin
            simpa [GlobalMap.entryInit] using ⟨h0.1.symm, h0.2.symm⟩
        by_cases hk : p0.1 = x.toAddr
        · rw [if_pos hk] at hqeq
          subst hqeq
          by_cases hr : x.typeStr = "data_read"
          · have hnw : x.typeStr ≠ "data_write" := by rw [hr]; decide
            simp [readRefCount_append, writeRefCount_append, beq_iff_eq, hw,
              entryUpdate_read, entryUpdate_write, hr, hnw, hk, hP0.1, hP0.2]
          · have hww : x.typeStr = "data_write" := by tauto
            simp [readRefCount_append, writeRefCount_append, beq_iff_eq, hw,
              entryUpdate_read, entryUpdate_write, hr, hww, hk, hP0.1, hP0.2]
        · rw [if_neg hk] at hqeq
          subst hqeq
          simp [readRefCount_append, writeRefCount_append, beq_iff_eq, hk,
            hP0.1, hP0.2]
          exact ⟨fun _ _ h => hk h.symm, fun _ _ h => hk h.symm⟩
  · intro k hk0
    simp only [GlobalMap.buildGlobalsStep] at hk0
    split_ifs at hk0 with ht hl
    · obtain ⟨ht1, ht2⟩ := ht
      have h0 := h2 k hk0
      simp [readRefCount_append, writeRefCount_append, beq_iff_eq, ht1, ht2,
        h0.1, h0.2]
    · rcases hsec : GlobalMap.sectionChoiceFor x.toAddr with _ | sec <;>
        rw [hsec] at hk0
      · have hw := sectionChoiceFor_none hsec
        have h0 := h2 k hk0
        simp [readRefCount_append, writeRefCount_append, hw, h0.1, h0.2]
      · have hdb1 : B3.alookup db k = none := alookup_map_upd_none hk0
        have hkt : k ≠ x.toAddr := by
          intro hkeq
          subst hkeq
          rw [hdb1] at hl
          simp at hl
        have h0 := h2 k hdb1
        simp [readRefCount_append, writeRefCount_append, beq_iff_eq, h0.1, h0.2]
        exact ⟨fun _ _ h => hkt h.symm, fun _ _ h => hkt h.symm⟩
    · rcases hsec : GlobalMap.sectionChoiceFor x.toAddr with _ | sec <;>
        rw [hsec] at hk0
      · have hw := sectionChoiceFor_none hsec
        have h0 := h2 k hk0
        simp [readRefCount_append, writeRefCount_append, hw, h0.1, h0.2]
      · have hdb1 : B3.alookup (db ++ [(x.toAddr,
            GlobalMap.entryInit x.toAddr sec)]) k = none := alookup_map_upd_none hk0
        rw [alookup_append_single] at hdb1
        rcases hdbk : B3.alookup db k with _ | w
        · rw [hdbk] at hdb1
          have hkt : k ≠ x.toAddr := by
            intro hkeq
            rw [if_pos hkeq] at hdb1
            simp at hdb1
          have h0 := h2 k hdbk
          simp [readRefCount_append, writeRefCount_append, beq_iff_eq, h0.1, h0.2]
          exact ⟨fun _ _ h => hkt h.symm, fun _ _ h => hkt h.symm⟩
        · rw [hdbk] at hdb1
          simp at hdb1

end B3

namespace B3

open B3.Disasm B3.Recomp B3.Xbe B3.FuncId B3.Scenario

theorem buildGlobals_counts (funcStarts : List Nat)
    (funcCategories : Nat → Option String) :
    ∀ (xs processed : List GlobalMap.XRefRec)
      (db : List (Nat × GlobalMap.GlobalEntry)),
      CountInv processed db →
      CountInv (processed ++ xs)
        (xs.foldl (GlobalMap.buildGlobalsStep funcStarts funcCategories) db) := by
  intro xs
  induction xs with
  | nil => intro processed db h; simpa using h
  | cons x rest ih =>
    intro processed db h
    have hstep := buildGlobalsStep_counts funcStarts funcCategories x processed db h
    have := ih (processed ++ [x])
      (GlobalMap.buildGlobalsStep funcStarts funcCategories db x) hstep
    simpa [List.append_assoc] using this

theorem xrefType_value_ne_data_write (t : Disasm.XRefType) :
    t.value ≠ "data_write" := by
  cases t <;> decide

theorem writeRefCount_of_no_writes {xs : List GlobalMap.XRefRec}
    (h : ∀ r ∈ xs, r.typeStr ≠ "data_write") (k : Nat) :
    GlobalMap.writeRefCount xs k = 0 := by
  induction xs with
  | nil => rfl
  | cons r rest ih =>
    have hr : r.typeStr ≠ "data_write" := h r (by simp)
    have : (r.typeStr == "data_write" && GlobalMap.inGlobalsWindow r.toAddr &&
        r.toAddr == k) = false := by
      simp [hr]
    unfold GlobalMap.writeRefCount at *
    simp only [List.filter, this]
    exact ih fun q hq => h q (by simp [hq])

/-- Claim C10: the cross-reference tracker has no data-write kind — every
non-branch instruction with a flat memory reference contributes a data_read
cross-reference — and consequently every Global built from the
cross-reference database has write_count 0 and read_count equal to the
number of data cross-references (one per referencing instruction) that
target it. -/
theorem c10_no_data_write_kind (insns : List EInsn) (image : BinaryImage)
    (funcStarts : List Nat) (funcCategories : Nat → Option String) :
    (∀ k e, (k, e) ∈ GlobalMap.buildGlobalsFromXrefs
        ((Disasm.buildXrefs insns image).map GlobalMap.xrefToRec)
        funcStarts funcCategories →
      e.writeCount = 0 ∧
      e.readCount = GlobalMap.readRefCount
        ((Disasm.buildXrefs insns image).map GlobalMap.xrefToRec) k) ∧
    (∀ insn ∈ insns, insn.isCall = false → insn.isBranch = false →
      ∀ m, insn.memoryRef = some m →
        ({ fromAddr := insn.address, toAddr := m, xrefType := .dataRead } :
          Disasm.XRef) ∈ Disasm.buildXrefs insns image) := by
  constructor
  · intro k e hmem
    have hnw : ∀ r ∈ (Disasm.buildXrefs insns image).map GlobalMap.xrefToRec,
        GlobalMap.XRefRec.typeStr r ≠ "data_write" := by
      intro r hr
      obtain ⟨x, _, hxr⟩ := List.mem_map.mp hr
      subst hxr
      exact xrefType_value_ne_data_write x.xrefType
    have hinv := buildGlobals_counts funcStarts funcCategories
      ((Disasm.buildXrefs insns image).map GlobalMap.xrefToRec) [] []
      ⟨by intro p hp; simp at hp, by
        intro k0 _
        constructor <;> rfl⟩
    rw [List.nil_append] at hinv
    have := hinv.1 (k, e) hmem
    refine ⟨?_, this.1⟩
    rw [this.2]
    exact writeRefCount_of_no_writes hnw k
  · intro insn hmem hcall hbranch m hm
    refine List.mem_flatMap.mpr ⟨insn, hmem, ?_⟩
    unfold Disasm.xrefsOfInsn
    have hj : insn.isJump = false ∧ insn.isCondJump = false := by
      have := hbranch
      unfold EInsn.isBranch at this
      constructor <;> simp_all
    simp [hcall, hbranch, hj.1, hj.2, hm, EInsn.isBranch]

end B3

namespace B3

open B3.Disasm B3.Recomp B3.Xbe B3.FuncId B3.Scenario

theorem c10_no_data_write_kind_witness :
    ({ address := 0x3B2360, sectionName := ".data", readCount := 2 } :
        GlobalMap.GlobalEntry).writeCount = 0 ∧
    ({ fromAddr := 0x11000, toAddr := 0x3B2360,
        xrefType := Disasm.XRefType.dataRead } : Disasm.XRef)
      ∈ Disasm.buildXrefs Scenario.c10insns Scenario.c5image :=
  ⟨((c10_no_data_write_kind Scenario.c10insns Scenario.c5image []
      (fun _ => none)).1 0x3B2360
      { address := 0x3B2360, sectionName := ".data", readCount := 2 }
      (by decide)).1,
   (c10_no_data_write_kind Scenario.c10insns Scenario.c5image []
      (fun _ => none)).2
      { address := 0x11000, size := 6, mnemonic := "mov",
        memoryRef := some 0x3B2360 }
      (by decide) rfl rfl 0x3B2360 rfl⟩

end B3

namespace B3

open B3.FuncId B3.Scenario

theorem forwardStep_preserves (callers : Nat → List Nat) (st : FuncId.PassState)
    (a addr : Nat) (l : String) (v : FuncId.PropInfo)
    (hl : B3.alookup st.labels addr = some l)
    (hp : B3.alookup st.propagated addr = some v) :
    B3.alookup (FuncId.forwardStep callers st a).labels addr = some l ∧
    B3.alookup (FuncId.forwardStep callers st a).propagated addr = some v := by
  cases hb : (B3.alookup st.labels a).isSome with
  | true => simp [FuncId.forwardStep, hb, hl, hp]
  | false =>
    have hne : addr ≠ a := by
      intro h
      subst h
      rw [hl] at hb
      simp at hb
    simp only [FuncId.forwardStep, hb, Bool.false_eq_true, if_false]
    split_ifs with h1 h2
    · exact ⟨hl, hp⟩
    · split
      · simp [B3.alookup, hne, hl, hp]
      · exact ⟨hl, hp⟩
    · exact ⟨hl, hp⟩

theorem forwardPass_preserves (callers : Nat → List Nat) (addrs : List Nat)
    (st : FuncId.PassState) (addr : Nat) (l : String) (v : FuncId.PropInfo)
    (hl : B3.alookup st.labels addr = some l)
    (hp : B3.alookup st.propagated addr = some v) :
    B3.alookup (FuncId.forwardPass addrs callers st).labels addr = some l ∧
    B3.alookup (FuncId.forwardPass addrs callers st).propagated addr = some v := by
  induction addrs generalizing st with
  | nil => exact ⟨hl, hp⟩
  | cons a rest ih =>
    have h := forwardStep_preserves callers st a addr l v hl hp
    simp only [FuncId.forwardPass, List.foldl_cons]
    exact ih (FuncId.forwardStep callers st a) h.1 h.2

/-- Counterexample to claim C7: in the 2-of-3 scenario the unlabeled
function 0x400 has exactly three direct callers of which exactly two carry
an rw_ label, yet the forward-propagation pass leaves it unpropagated,
because the code compares the caller ratio against the float literal 0.67
and 2/3 is below 0.67. -/
theorem c7_counterexample :
    FuncId.callersOf c7fns 0x400 = [0x100, 0x200, 0x300] ∧
    (FuncId.rwTally (FuncId.initLabels c7rw [])
      (FuncId.callersOf c7fns 0x400)).1 = 2 ∧
    (B3.alookup (FuncId.initLabels c7rw []) 0x400).isNone = true ∧
    (B3.alookup (FuncId.forwardPass c7addrs (FuncId.callersOf c7fns)
      { labels := FuncId.initLabels c7rw [], propagated := [] }).propagated
      0x400).isNone = true := by
  decide

/-- Claim C7 (amended): forward propagation labels an unlabeled function
with at least two direct callers when at least two callers are rw_-labeled
and the rw fraction of its callers passes the exact 0.67 threshold test
(100 * rw_count >= 67 * caller_count, the code's float test; 2 out of 3 is
0.666..., which fails), assigning the most common caller label at
confidence CONFIDENCE_CLUSTER_CALL = 0.75 with method cluster_forward, and
the assignment survives the rest of the pass. -/
theorem c7_forward_majority (pre post : List Nat) (callers : Nat → List Nat)
    (st : FuncId.PassState) (addr : Nat) (best : String)
    (hunl : B3.alookup (FuncId.forwardPass pre callers st).labels addr = none)
    (hlen : 2 ≤ (callers addr).length)
    (hrw : 2 ≤ (FuncId.rwTally (FuncId.forwardPass pre callers st).labels
      (callers addr)).1)
    (hratio : FuncId.ratioGe067
      (FuncId.rwTally (FuncId.forwardPass pre callers st).labels (callers addr)).1
      (callers addr).length = true)
    (hbest : FuncId.counterArgmax
      (FuncId.rwTally (FuncId.forwardPass pre callers st).labels
        (callers addr)).2 = some best) :
    B3.alookup (FuncId.forwardPass (pre ++ addr :: post) callers st).propagated
      addr = some { category := best, subcategory := none,
                    confidence := FuncId.CONFIDENCE_CLUSTER_CALL,
                    method := "cluster_forward" } ∧
    FuncId.CONFIDENCE_CLUSTER_CALL = 3 / 4 := by
  have hfold : FuncId.forwardPass (pre ++ addr :: post) callers st
      = FuncId.forwardPass post callers
        (FuncId.forwardStep callers (FuncId.forwardPass pre callers st) addr) := by
    simp [FuncId.forwardPass, List.foldl_append]
  rw [hfold]
  have hstep : FuncId.forwardStep callers (FuncId.forwardPass pre callers st) addr
      = { labels := (addr, best) :: (FuncId.forwardPass pre callers st).labels,
          propagated := (addr,
              { category := best, subcategory := none,
                confidence := FuncId.CONFIDENCE_CLUSTER_CALL,
                method := "cluster_forward" }) ::
            (FuncId.forwardPass pre callers st).propagated,
          count := (FuncId.forwardPass pre callers st).count + 1 } := by
    simp [FuncId.forwardStep, hunl, Nat.not_lt.mpr hlen, hrw, hratio, hbest]
  rw [hstep]
  refine ⟨(forwardPass_preserves callers post _ addr best _ ?_ ?_).2, ?_⟩
  · simp [B3.alookup]
  · simp [B3.alookup]
  · norm_num [FuncId.CONFIDENCE_CLUSTER_CALL]

theorem c7_forward_majority_witness :
    B3.alookup (FuncId.forwardPass [0x100, 0x200, 0x300, 0x400, 0x500]
      (FuncId.callersOf c7fnsB) c7stB).propagated 0x500 =
      some { category := "rw_core", subcategory := none,
             confidence := FuncId.CONFIDENCE_CLUSTER_CALL,
             method := "cluster_forward" } ∧
    FuncId.CONFIDENCE_CLUSTER_CALL = 3 / 4 :=
  c7_forward_majority [0x100, 0x200, 0x300, 0x400] []
    (FuncId.callersOf c7fnsB) c7stB 0x500 "rw_core"
    (by decide) (by decide) (by decide) (by decide) (by decide)

end B3

namespace B3

open B3.Disasm B3.Scenario

theorem findEndLoop_le (insns : List EInsn) (start upper B : Nat)
    (hub : upper ≤ B + 1)
    (hup : ∀ a i, getInstruction insns a = some i → start ≤ a → a < upper →
      a + i.size ≤ B) :
    ∀ fuel addr maxAddr, start ≤ addr → maxAddr ≤ B →
      Disasm.findEndLoop insns start upper fuel addr maxAddr ≤ B := by
  intro fuel
  induction fuel with
  | zero =>
    intro addr maxAddr _ hm
    simpa [Disasm.findEndLoop] using hm
  | succ n ih =>
    intro addr maxAddr ha hm
    by_cases hlt : addr < upper
    · cases hins : getInstruction insns addr with
      | none => simp [Disasm.findEndLoop, hlt, hins, hm]
      | some insn =>
        have hend : addr + insn.size ≤ B := hup addr insn hins ha hlt
        have hia : insn.address = addr := getInstruction_address hins
        have ha' : start ≤ addr + insn.size := by omega
        simp only [Disasm.findEndLoop, if_pos hlt, hins, EInsn.endAddress, hia]
        cases htgt : insn.jumpTarget with
        | none =>
          dsimp only
          split_ifs <;>
            first
              | omega
              | exact ih _ _ ha' (by omega)
        | some target =>
          dsimp only
          split_ifs <;>
            first
              | omega
              | exact ih _ _ ha' (by omega)
    · simp [Disasm.findEndLoop, hlt, hm]

theorem findFunctionEnd_le (insns : List EInsn) (start : Nat)
    (nextFunc secEnd : Option Nat) (B : Nat)
    (hstart : start ≤ B)
    (hub : upperOf start nextFunc secEnd ≤ B + 1)
    (hup : ∀ a i, getInstruction insns a = some i → start ≤ a →
      a < upperOf start nextFunc secEnd → a + i.size ≤ B) :
    Disasm.findFunctionEnd insns start nextFunc secEnd ≤ B :=
  findEndLoop_le insns start _ B hub hup _ start start le_rfl hstart

theorem upperOf_secEnd_le (start E : Nat) (nextFunc : Option Nat) (hE : E ≠ 0) :
    upperOf start nextFunc (some E) ≤ E := by
  rcases nextFunc with _ | n <;>
    simp only [upperOf, upper0Of] <;> split_ifs <;> omega

theorem upperOf_next_bound (start n : Nat) (secEnd : Option Nat) (hn : n ≠ 0) :
    upperOf start (some n) secEnd ≤ n + 1 ∧
      ∀ a, a < upperOf start (some n) secEnd → a < n := by
  constructor
  · simp only [upperOf]
    split_ifs with h <;> omega
  · intro a ha
    simp only [upperOf] at ha
    split_ifs at ha with h <;> omega

theorem instructionsInRange_pos_lt (insns : List EInsn) (s t : Nat)
    (h : (instructionsInRange insns s t).length ≠ 0) : s < t := by
  obtain ⟨i, hi⟩ := List.exists_mem_of_length_pos (Nat.pos_of_ne_zero h)
  unfold instructionsInRange at hi
  have hpred := (List.mem_filter.mp hi).2
  simp only [Bool.and_eq_true, decide_eq_true_eq] at hpred
  omega

theorem buildFunctions_start_mem (insns : List EInsn) (image : BinaryImage)
    (candInfo : Nat → ℚ × String) (labels : Nat → Option String) :
    ∀ (l : List Nat) (f : FunctionRec),
      f ∈ Disasm.buildFunctions insns image candInfo labels l → f.start ∈ l := by
  intro l
  induction l with
  | nil =>
    intro f h
    simp [Disasm.buildFunctions] at h
  | cons c rest ih =>
    intro f h
    simp only [Disasm.buildFunctions] at h
    split_ifs at h with h0
    · exact List.mem_cons_of_mem _ (ih f h)
    · rcases List.mem_cons.mp h with h1 | h1
      · simp [h1]
      · exact List.mem_cons_of_mem _ (ih f h1)

end B3

namespace B3

open B3.Disasm B3.Scenario

/-- Claim C1: under well-formed decoding — candidate starts strictly sorted,
every decoded instruction contained in each section that contains its
address, and no decoded instruction spanning a candidate start — every
Function record built by the detector satisfies start < end, end bounded by
the containing section's end, and the produced records are pairwise
disjoint on [start, end): the forward walk for one candidate never crosses
the next candidate's start. -/
theorem c1_function_intervals (insns : List EInsn) (image : BinaryImage)
    (candInfo : Nat → ℚ × String) (labels : Nat → Option String)
    (hsec : ∀ i ∈ insns, ∀ sec ∈ image.sections,
      sec.virtualAddr ≤ i.address →
      i.address < sec.virtualAddr + sec.virtualSize →
      i.address + i.size ≤ sec.virtualAddr + sec.virtualSize)
    (cands : List Nat) :
    List.Pairwise (fun a b => a < b) cands →
    (∀ i ∈ insns, ∀ c ∈ cands, i.address < c → i.address + i.size ≤ c) →
    (∀ f ∈ Disasm.buildFunctions insns image candInfo labels cands,
      f.start < f.stop ∧
      ∀ sec, getSectionAtVa image f.start = some sec →
        f.stop ≤ sec.virtualAddr + sec.virtualSize) ∧
    List.Pairwise (fun f g => f.stop ≤ g.start)
      (Disasm.buildFunctions insns image candInfo labels cands) := by
  induction cands with
  | nil =>
    intro _ _
    constructor
    · intro f h
      simp [Disasm.buildFunctions] at h
    · simp only [Disasm.buildFunctions]
      exact List.Pairwise.nil
  | cons c rest ih =>
    intro hsorted hcross
    obtain ⟨hclt, hsort'⟩ := List.pairwise_cons.mp hsorted
    have hcross' : ∀ i ∈ insns, ∀ c' ∈ rest, i.address < c' →
        i.address + i.size ≤ c' :=
      fun i hi c' hc' => hcross i hi c' (List.mem_cons_of_mem _ hc')
    obtain ⟨ihA, ihB⟩ := ih hsort' hcross'
    have hsecE : ∀ sec, getSectionAtVa image c = some sec →
        Disasm.findFunctionEnd insns c rest.head?
          ((getSectionAtVa image c).map fun s => s.virtualAddr + s.virtualSize)
          ≤ sec.virtualAddr + sec.virtualSize := by
      intro sec hsc
      obtain ⟨hmem, hva, hvend⟩ := getSectionAtVa_spec hsc
      rw [hsc]
      simp only [Option.map_some']
      have hEne : sec.virtualAddr + sec.virtualSize ≠ 0 := by omega
      have hupE := upperOf_secEnd_le c (sec.virtualAddr + sec.virtualSize)
        rest.head? hEne
      apply findFunctionEnd_le
      · omega
      · omega
      · intro a i hfind hca hlt
        have hia := getInstruction_address hfind
        have him := getInstruction_mem hfind
        have h1 : sec.virtualAddr ≤ i.address := by omega
        have h2 : i.address < sec.virtualAddr + sec.virtualSize := by omega
        have := hsec i him sec hmem h1 h2
        omega
    have hnext : ∀ n rest2, rest = n :: rest2 →
        Disasm.findFunctionEnd insns c rest.head?
          ((getSectionAtVa image c).map fun s => s.virtualAddr + s.virtualSize)
          ≤ n := by
      intro n rest2 hr
      subst hr
      have hcn : c < n := hclt n (by simp)
      have hn0 : n ≠ 0 := by omega
      obtain ⟨hub, hltn⟩ := upperOf_next_bound c n
        ((getSectionAtVa image c).map fun s => s.virtualAddr + s.virtualSize) hn0
      apply findFunctionEnd_le
      · omega
      · simpa using hub
      · intro a i hfind hca hlt
        have hia := getInstruction_address hfind
        have him := getInstruction_mem hfind
        have han : a < n := hltn a (by simpa using hlt)
        have := hcross i him n (by simp) (by omega)
        omega
    simp only [Disasm.buildFunctions]
    split_ifs with h0
    · exact ⟨ihA, ihB⟩
    · constructor
      · intro f hf
        rcases List.mem_cons.mp hf with h1 | h1
        · subst h1
          dsimp only
          constructor
          · exact instructionsInRange_pos_lt insns c _ h0
          · intro sec hs
            exact hsecE sec hs
        · exact ihA f h1
      · refine List.Pairwise.cons ?_ ihB
        intro g hg
        have hgs : g.start ∈ rest :=
          buildFunctions_start_mem insns image candInfo labels rest g hg
        dsimp only
        cases rest with
        | nil => simp at hgs
        | cons n rest2 =>
          have hEn := hnext n rest2 rfl
          rcases List.mem_cons.mp hgs with h2 | h2
          · rw [h2]
            exact hEn
          · have hn2 : n < g.start := (List.pairwise_cons.mp hsort').1 g.start h2
            omega

end B3

namespace B3

open B3.Disasm B3.Scenario

theorem c1_function_intervals_witness :
    (∀ f ∈ Disasm.buildFunctions c5einsns c5image (fun _ => (1, "prologue"))
        (fun _ => none) [0x11000, 0x11020],
      f.start < f.stop ∧
      ∀ sec, getSectionAtVa c5image f.start = some sec →
        f.stop ≤ sec.virtualAddr + sec.virtualSize) ∧
    List.Pairwise (fun f g => f.stop ≤ g.start)
      (Disasm.buildFunctions c5einsns c5image (fun _ => (1, "prologue"))
        (fun _ => none) [0x11000, 0x11020]) :=
  c1_function_intervals c5einsns c5image (fun _ => (1, "prologue"))
    (fun _ => none) (by decide) [0x11000, 0x11020] (by decide) (by decide)

end B3
